import Mathlib

/-!
Verification of the frame-pipeline core of the mofeng-git/ustreamer repository.

The C sources are shallowly embedded: machine integers become `Nat` (the
arithmetic in the embedded paths never overflows 32/64-bit ranges for the
geometries involved, and claims are stated over the mathematical values),
byte buffers become `List Nat`, a NULL data pointer is modelled as the empty
list, and every external interaction (the Rockchip MPP codec library, libyuv,
libjpeg, the DRM device) is supplied through an explicit environment value so
that the control flow of the repository's own code is total and executable.
-/

/-- V4L2 pixel-format tags used by the pipeline (`linux/videodev2.h` fourccs,
modelled as an enumeration since the code only compares them for equality). -/
inductive PixFmt where
  | yuyv | rgb24 | bgr24 | nv12 | nv16 | yuv420 | mjpeg | jpeg | h264 | xrgb8888 | other
  deriving DecidableEq, Repr

/-- `us_mpp_error_e` from `mpp_encoder.h`. -/
inductive MppError where
  | ok | invalidParam | memory | initErr | encode | decode | formatUnsupported
  | deviceNotFound | deviceBusy | hardwareFailure | notInitialized
  | bufferOverflow | timeout | infoChange | eos
  deriving DecidableEq, Repr

/-- `us_frame_s` from `libs/frame.h`: geometry and format metadata plus the
byte buffer.  `data` holds the `allocated` bytes of the backing store; a NULL
`data` pointer is modelled as the empty list. -/
structure Frame where
  format : PixFmt
  width : Nat
  height : Nat
  stride : Nat
  used : Nat
  allocated : Nat
  data : List Nat
  deriving DecidableEq, Repr

/-- Modelled from the spec: `us_frame_realloc_data` of `libs/frame.c` (the file
is not part of the provided sources).  Per spec §3/§4.A the buffer is
"reallocated on-demand" and ensure-capacity "must not shrink": growing to `n`
preserves the existing bytes and extends the store; a request not above the
current capacity is a no-op.  Allocation failure is not modelled. -/
def us_frame_realloc_data (f : Frame) (n : Nat) : Frame :=
  if f.allocated < n then
    { f with allocated := n, data := f.data ++ List.replicate (n - f.data.length) 0 }
  else f

/-- Modelled from the spec: `us_frame_append_data` of `libs/frame.c` (§4.A:
"append-bytes(src, n) ... increases `used` by `n`"; growth failure is not
modelled).  Appends the `n` given bytes at offset `used`. -/
def us_frame_append_data (f : Frame) (src : List Nat) (n : Nat) : Frame :=
  let f := us_frame_realloc_data f (f.used + n)
  let payload := (src ++ List.replicate n 0).take n
  { f with data := f.data.take f.used ++ payload ++ f.data.drop (f.used + n),
           used := f.used + n }

/-- Modelled from the spec: `US_FRAME_COPY_META` of `libs/frame.h` (§4.A:
"Clone-meta copies all scalar fields except `data`, `used`, `allocated`"). -/
def us_frame_copy_meta (src dst : Frame) : Frame :=
  { dst with format := src.format, width := src.width, height := src.height,
             stride := src.stride }

/-- `_us_mpp_calc_frame_size_by_format` (mpp format converter source, lines
20-36): payload size of a frame in the given format. -/
def _us_mpp_calc_frame_size_by_format (width height : Nat) (format : PixFmt) : Nat :=
  match format with
  | .rgb24 => width * height * 3
  | .bgr24 => width * height * 3
  | .yuyv => width * height * 2
  | .nv12 => width * height * 3 / 2
  | .nv16 => width * height * 2
  | .yuv420 => width * height * 3 / 2
  | _ => 0

/-- Byte-interleaving of two chroma planes (u0 v0 u1 v1 ...), the NV12 chroma
layout produced by libyuv's MergeUVPlane. -/
def interleaveUV : List Nat → List Nat → List Nat
  | u :: us, v :: vs => u :: v :: interleaveUV us vs
  | _, _ => []

/-- The U half of the inverse of `interleaveUV` (reference deinterleave of the
spec's round-trip statement): bytes at even positions. -/
def deinterleaveU : List Nat → List Nat
  | u :: _ :: rest => u :: deinterleaveU rest
  | _ => []

/-- The V half of the reference deinterleave: bytes at odd positions. -/
def deinterleaveV : List Nat → List Nat
  | _ :: v :: rest => v :: deinterleaveV rest
  | _ => []

/-- Semantics of libyuv's `I420ToNV12` (external library): copy the source
luma plane to the destination luma plane and write the interleaved U/V planes
to the destination chroma plane.  Strides equal the widths at every call site
in this repository and the geometry is even, so the planes are passed as plain
lists; the function returns the new destination contents
(luma ++ interleaved chroma). -/
def libyuv_I420ToNV12 (srcY srcU srcV : List Nat) : List Nat :=
  srcY ++ interleaveUV srcU srcV

/-- `_us_mpp_convert_yuv420_to_nv12` (mpp format converter source, lines
197-253).  NOTE, faithful to the C: the `I420ToNV12` call at line 233 passes
`y_plane` — a pointer into the *destination* buffer — as the source-luma
argument (instead of `yuv420_data`), so the luma copy reads the destination's
own prior contents; only the chroma interleave reads the source frame. -/
def _us_mpp_convert_yuv420_to_nv12 (yuv420 nv12 : Frame) : MppError × Frame :=
  if yuv420.format ≠ PixFmt.yuv420 then (.formatUnsupported, nv12)
  else
    let w := yuv420.width
    let h := yuv420.height
    let nv12_size := _us_mpp_calc_frame_size_by_format w h .nv12
    let d := us_frame_realloc_data nv12 nv12_size
    -- y_plane = d.data[0 ..), uv_plane = d.data[w*h ..)
    -- u_plane = src[w*h ..), v_plane = src[w*h + w*h/4 ..)
    let u_plane := (yuv420.data.drop (w * h)).take (w * h / 4)
    let v_plane := (yuv420.data.drop (w * h + w * h / 4)).take (w * h / 4)
    -- I420ToNV12(src_y = y_plane(dst!), u_plane, v_plane, dst_y = y_plane, dst_uv = uv_plane)
    let written := libyuv_I420ToNV12 (d.data.take (w * h)) u_plane v_plane
    let newData := written ++ d.data.drop written.length
    (.ok, { d with data := newData, width := w, height := h,
                   format := .nv12, used := nv12_size })

/-- Reference I420 → NV12 conversion following the spec's words (§4.B /
round-trip property): destination luma is the source luma, destination chroma
is the interleaving of the source U and V planes. -/
def i420_to_nv12_ref (src : Frame) : List Nat :=
  let w := src.width
  let h := src.height
  libyuv_I420ToNV12 (src.data.take (w * h))
    ((src.data.drop (w * h)).take (w * h / 4))
    ((src.data.drop (w * h + w * h / 4)).take (w * h / 4))

/-- Reference NV12 → I420 deinterleave (the spec's "reference deinterleave"):
luma plane followed by the deinterleaved U plane and V plane. -/
def nv12_to_i420_ref (nv12Data : List Nat) (w h : Nat) : List Nat :=
  nv12Data.take (w * h) ++ deinterleaveU ((nv12Data.drop (w * h)).take (w * h / 2))
    ++ deinterleaveV ((nv12Data.drop (w * h)).take (w * h / 2))

/-- A concrete well-formed 2×2 I420 frame: luma 10 20 30 40, U plane 50,
V plane 60. -/
def testI420 : Frame :=
  { format := .yuv420, width := 2, height := 2, stride := 2,
    used := 6, allocated := 6, data := [10, 20, 30, 40, 50, 60] }

/-- A zero-initialized destination frame with capacity for a 2×2 NV12 image. -/
def testNv12Dst : Frame :=
  { format := .other, width := 0, height := 0, stride := 0,
    used := 0, allocated := 6, data := [0, 0, 0, 0, 0, 0] }

/-- C1.  The YUV420 → NV12 converter is NOT lossless: on the 2×2 input frame
`testI420` with a zero-initialized destination the call succeeds, the
destination chroma is the correct interleaving, but the destination luma plane
keeps the destination's prior zero bytes instead of the source luma
(10 20 30 40), so the reference I420 → NV12 → I420 round trip is not the
identity.  (The `I420ToNV12` call passes the destination luma pointer as its
source-luma argument.) -/
theorem C1_yuv420_to_nv12_luma_dropped :
    (_us_mpp_convert_yuv420_to_nv12 testI420 testNv12Dst).1 = .ok ∧
    (_us_mpp_convert_yuv420_to_nv12 testI420 testNv12Dst).2.data = [0, 0, 0, 0, 50, 60] ∧
    (_us_mpp_convert_yuv420_to_nv12 testI420 testNv12Dst).2.data.take 4 ≠ testI420.data.take 4 ∧
    i420_to_nv12_ref testI420 = [10, 20, 30, 40, 50, 60] ∧
    nv12_to_i420_ref (_us_mpp_convert_yuv420_to_nv12 testI420 testNv12Dst).2.data 2 2 ≠ testI420.data := by
  decide

/-- `us_mpp_stats_s` from `mpp_encoder.h`.  The C `double` time/fps fields are
modelled in exact rational arithmetic (`ℚ`); no claim depends on their
floating-point rounding. -/
structure MppStats where
  frames_processed : Nat := 0
  bytes_input : Nat := 0
  bytes_output : Nat := 0
  processing_errors : Nat := 0
  avg_processing_time_ms : ℚ := 0
  total_processing_time_ms : ℚ := 0
  current_fps : ℚ := 0
  last_stats_update : Nat := 0
  frames_decoded : Nat := 0
  decode_errors : Nat := 0
  frames_encoded : Nat := 0
  encode_errors : Nat := 0
  keyframes_generated : Nat := 0
  deriving DecidableEq, Repr

/-- The observable state of `us_mpp_processor_s` (`mpp_encoder.h`): the fields
that the embedded control paths read or write.  MPP library handles (context,
packet, frame, buffer groups) are reduced to their observable content: the
pre-allocated input buffer `frm_buf` holds bytes, the groups are presence
flags. -/
structure MppProcessor where
  codec_is_encoder : Bool
  initialized : Bool
  processing : Bool := false
  should_stop : Bool := false
  consecutive_errors : Nat := 0
  max_consecutive_errors : Nat := 10
  stats : MppStats := {}
  frame_number : Nat := 0
  width : Nat := 0
  height : Nat := 0
  hor_stride : Nat := 0
  ver_stride : Nat := 0
  frm_grp : Bool := false
  frm_buf : List Nat := []
  pkt_grp : Bool := false
  frame_holder : Bool := true
  deriving DecidableEq, Repr

/-- `us_mpp_is_format_supported_for_decode` (`mpp_encoder.c` lines 343-346). -/
def us_mpp_is_format_supported_for_decode (format : PixFmt) : Bool :=
  format = .mjpeg ∨ format = .jpeg

/-- `us_mpp_is_format_supported_for_encode` (`mpp_encoder.c` lines 348-351). -/
def us_mpp_is_format_supported_for_encode (format : PixFmt) : Bool :=
  format = .nv12

/-- `us_mpp_is_format_supported` (mpp format converter source, lines
412-426). -/
def us_mpp_is_format_supported (format : PixFmt) : Bool :=
  match format with
  | .mjpeg | .jpeg | .rgb24 | .bgr24 | .yuyv | .nv12 | .nv16 | .yuv420 => true
  | _ => false

/-- `_us_mpp_update_stats` (`mpp_encoder.c` lines 125-160).  `now` is the
value `_us_mpp_get_time_us()` returns at the top of the function. -/
def _us_mpp_update_stats (proc : MppProcessor) (process_time_us : Nat)
    (success is_encode : Bool) (now : Nat) : MppProcessor :=
  let s0 := proc.stats
  let fp := s0.frames_processed + 1
  let total := s0.total_processing_time_ms + (process_time_us : ℚ) / 1000
  let s1 := { s0 with frames_processed := fp,
                      total_processing_time_ms := total,
                      avg_processing_time_ms := total / (fp : ℚ) }
  let s1e := { s1 with processing_errors := s1.processing_errors + 1 }
  let s2 :=
    if success then
      (if is_encode then { s1 with frames_encoded := s1.frames_encoded + 1 }
       else { s1 with frames_decoded := s1.frames_decoded + 1 })
    else
      (if is_encode then { s1e with encode_errors := s1e.encode_errors + 1 }
       else { s1e with decode_errors := s1e.decode_errors + 1 })
  let ce := if success then 0 else proc.consecutive_errors + 1
  let s3 :=
    if now - s2.last_stats_update ≥ 1000000 then
      let elapsed_sec : ℚ := ((now - s2.last_stats_update : Nat) : ℚ) / 1000000
      let s2f :=
        if 0 < elapsed_sec then
          { s2 with current_fps :=
              if 0 < s2.avg_processing_time_ms then 1000 / s2.avg_processing_time_ms else 0 }
        else s2
      { s2f with last_stats_update := now }
    else s2
  { proc with stats := s3, consecutive_errors := ce }

/-- One `encode_get_packet` observation in the H.264 encode loop
(`mpp_h264_encoder.c` lines 397-432): the call can time out, fail, deliver a
NULL packet with an OK return, or deliver a packet carrying `length` bytes and
the `KEY_OUTPUT_INTRA` meta flag. -/
inductive EncPoll where
  | timeout
  | fail
  | nullPacket
  | packet (data : List Nat) (intra : Bool)
  deriving DecidableEq, Repr

/-- External behaviour consumed by one `us_mpp_h264_encoder_encode` call:
the result of `encode_put_frame` and the result of the i-th
`encode_get_packet` poll, plus the two `_us_mpp_get_time_us()` readings. -/
structure EncEnv where
  putFrameOk : Bool
  poll : Nat → EncPoll
  start_time : Nat := 0
  end_time : Nat := 0

/-- `_us_mpp_h264_extract_output_packet` (`mpp_h264_encoder.c` lines
181-227): copy the packet bytes into the output frame, set the H.264
metadata, count a keyframe when the intra meta flag is set. -/
def _us_mpp_h264_extract_output_packet (encoder : MppProcessor)
    (data : List Nat) (intra : Bool) (h264_frame : Frame) :
    MppError × MppProcessor × Frame :=
  if data.length = 0 then (.encode, encoder, h264_frame)
  else
    let f1 := { h264_frame with format := .h264, width := encoder.width,
                                height := encoder.height, stride := 0,
                                used := data.length }
    let f2 := us_frame_realloc_data f1 data.length
    let f3 := { f2 with data := data ++ f2.data.drop data.length }
    let enc' :=
      if intra then
        { encoder with stats :=
            { encoder.stats with keyframes_generated := encoder.stats.keyframes_generated + 1 } }
      else encoder
    (.ok, enc', f3)

/-- `US_MPP_H264_MAX_RETRY` (`mpp_h264_encoder.c` line 34). -/
def US_MPP_H264_MAX_RETRY : Nat := 30

/-- Outcome of the output-fetch loop of `us_mpp_h264_encoder_encode`
(`mpp_h264_encoder.c` lines 394-432), with the observable loop counters:
`polls` is the number of `encode_get_packet` calls made, `sleeps` the number
of `usleep(1000)` (1 ms) backoffs executed. -/
structure FetchResult where
  result : MppError
  proc : MppProcessor
  out : Frame
  polls : Nat
  sleeps : Nat
  deriving Repr

/-- The `do { ... } while (1)` output-fetch loop of
`us_mpp_h264_encoder_encode` (`mpp_h264_encoder.c` lines 397-432).  `n` is the
current `retry_count` (every earlier iteration returned a NULL packet); the
fuel argument is `US_MPP_H264_MAX_RETRY - n`, which bounds the remaining
iterations.  A timeout breaks the loop leaving `result` at its prior `OK`;
any other MPP failure sets `Encode`; a delivered packet is extracted and
breaks; a NULL packet increments `retry_count`, fails with `Timeout` when the
cap is reached and otherwise sleeps 1 ms and re-polls. -/
def _us_mpp_h264_fetch_loop (poll : Nat → EncPoll) (encoder : MppProcessor)
    (h264_frame : Frame) : Nat → Nat → FetchResult
  | _, 0 => ⟨.timeout, encoder, h264_frame, 0, 0⟩
  | n, fuel + 1 =>
    match poll n with
    | .timeout => ⟨.ok, encoder, h264_frame, 1, 0⟩
    | .fail => ⟨.encode, encoder, h264_frame, 1, 0⟩
    | .packet data intra =>
      let (e, enc', out') := _us_mpp_h264_extract_output_packet encoder data intra h264_frame
      ⟨e, enc', out', 1, 0⟩
    | .nullPacket =>
      if n + 1 ≥ US_MPP_H264_MAX_RETRY then ⟨.timeout, encoder, h264_frame, 1, 0⟩
      else
        let r := _us_mpp_h264_fetch_loop poll encoder h264_frame (n + 1) fuel
        ⟨r.result, r.proc, r.out, r.polls + 1, r.sleeps + 1⟩

/-- The `cleanup:` section of `us_mpp_h264_encoder_encode`
(`mpp_h264_encoder.c` lines 434-443): clear `processing`, advance
`frame_number`, and record the call in the statistics with success iff the
final result is `OK`. -/
def _us_mpp_h264_encode_finish (enc : MppProcessor) (result : MppError)
    (out : Frame) (env : EncEnv) : MppError × MppProcessor × Frame :=
  let enc3 := { enc with processing := false, frame_number := enc.frame_number + 1 }
  (result,
   _us_mpp_update_stats enc3 (env.end_time - env.start_time) (result == .ok) true env.end_time,
   out)

/-- `us_mpp_h264_encoder_encode` (`mpp_h264_encoder.c` lines 335-456).
Validation order is the source's: initialized, format, empty-frame, then
`should_stop` under the lock.  On the main path the NV12 payload is copied
into the pre-allocated `frm_buf`, the frame is submitted, the fetch loop
runs, and `_us_mpp_update_stats` records the call (success iff the final
result is `OK`; the `cleanup:` section is `_us_mpp_h264_encode_finish`).
The `_us_mpp_h264_setup_input_frame` call only manipulates MPP handles and
cannot fail with non-NULL arguments, so it has no observable effect here. -/
def us_mpp_h264_encoder_encode (encoder : MppProcessor) (nv12_frame h264_frame : Frame)
    (_force_key : Bool) (env : EncEnv) : MppError × MppProcessor × Frame :=
  if ¬ encoder.initialized then (.notInitialized, encoder, h264_frame)
  else if ¬ us_mpp_is_format_supported_for_encode nv12_frame.format then
    (.formatUnsupported, encoder, h264_frame)
  else if nv12_frame.used = 0 ∨ nv12_frame.data = [] then
    (.invalidParam, encoder, h264_frame)
  else if encoder.should_stop then (.notInitialized, encoder, h264_frame)
  else
    -- memcpy(mpp_buffer_get_ptr(frm_buf), nv12_frame->data, nv12_frame->used)
    let enc1 := { encoder with
                  processing := true
                  frm_buf := (nv12_frame.data.take nv12_frame.used
                               ++ encoder.frm_buf.drop nv12_frame.used) }
    if ¬ env.putFrameOk then _us_mpp_h264_encode_finish enc1 .encode h264_frame env
    else
      let r := _us_mpp_h264_fetch_loop env.poll enc1 h264_frame 0 US_MPP_H264_MAX_RETRY
      _us_mpp_h264_encode_finish r.proc r.result r.out env

/-- The observable fields of the `MppFrame` returned by `decode_get_frame`
(`mpp_mjpeg_decoder.c` lines 418-465): the info-change flag, error/discard
words, EOS flag, geometry, and the backing buffer contents (`none` models a
NULL `mpp_frame_get_buffer`). -/
structure MppFrameOut where
  info_change : Bool
  errinfo : Nat
  discard : Nat
  eos : Bool
  width : Nat
  height : Nat
  hor_stride : Nat
  ver_stride : Nat
  buffer : Option (List Nat)
  deriving DecidableEq, Repr

/-- Result of the single `decode_get_frame` call of one decode. -/
inductive DecGetFrame where
  | fail (isTimeout : Bool)
  | nullFrame
  | frame (fr : MppFrameOut)
  deriving DecidableEq, Repr

/-- External behaviour consumed by one `us_mpp_mjpeg_decoder_decode` call:
success of each MPP library step and the `decode_get_frame` observation. -/
structure DecEnv where
  pkt_grp_ok : Bool := true
  buffer_get_ok : Bool := true
  buffer_ptr_ok : Bool := true
  packet_init_ok : Bool := true
  put_packet_ok : Bool := true
  get_frame : DecGetFrame
  ext_grp_ok : Bool := true
  set_ext_grp_ok : Bool := true
  info_change_ready_ok : Bool := true
  deriving DecidableEq, Repr

/-- `_us_mpp_mjpeg_copy_frame_data` (`mpp_mjpeg_decoder.c` lines 155-206):
populate the destination frame from a decoded NV12 surface.  The metadata is
written before the (re)allocation, exactly as in the source; the copy takes
`hor_stride·ver_stride + hor_stride·ver_stride/2` bytes from the MPP buffer. -/
def _us_mpp_mjpeg_copy_frame_data (fr : MppFrameOut) (out_frame : Frame) :
    MppError × Frame :=
  match fr.buffer with
  | none => (.decode, out_frame)
  | some src =>
    if src = [] then (.decode, out_frame)
    else
      let y_size := fr.hor_stride * fr.ver_stride
      let uv_size := fr.hor_stride * fr.ver_stride / 2
      let total_size := y_size + uv_size
      let o1 := { out_frame with format := PixFmt.nv12, width := fr.width,
                                 height := fr.height, stride := fr.hor_stride,
                                 used := total_size }
      let o2 := us_frame_realloc_data o1 total_size
      let o3 := { o2 with data := src.take total_size ++ o2.data.drop total_size }
      (.ok, o3)

/-- `_us_mpp_mjpeg_process_info_change` (`mpp_mjpeg_decoder.c` lines 86-153):
record the announced geometry, create the external buffer group on first use
(its 24 pre-allocated buffers live inside the MPP group and are not otherwise
observable), and acknowledge with `INFO_CHANGE_READY`. -/
def _us_mpp_mjpeg_process_info_change (decoder : MppProcessor) (fr : MppFrameOut)
    (env : DecEnv) : MppError × MppProcessor :=
  if fr.info_change then
    let d0 := { decoder with width := fr.width, height := fr.height,
                             hor_stride := fr.hor_stride, ver_stride := fr.ver_stride }
    if d0.frm_grp then
      if ¬ env.info_change_ready_ok then (.decode, d0) else (.ok, d0)
    else if ¬ env.ext_grp_ok then (.initErr, d0)
    else
      let d1 := { d0 with frm_grp := true }
      if ¬ env.set_ext_grp_ok then (.initErr, d1)
      else if ¬ env.info_change_ready_ok then (.decode, d1)
      else (.ok, d1)
  else (.ok, decoder)

/-- The dispatch on the frame returned by `decode_get_frame`
(`mpp_mjpeg_decoder.c` lines 434-472): info-change (reported as the soft
`InfoChange` code when processed successfully), error/discard, EOS, or a
valid frame to copy out. -/
def us_mpp_mjpeg_handle_frame (d : MppProcessor) (fr : MppFrameOut)
    (nv12_frame : Frame) (env : DecEnv) : MppError × MppProcessor × Frame :=
  if fr.info_change then
    match _us_mpp_mjpeg_process_info_change d fr env with
    | (e, d') => ((if e = .ok then MppError.infoChange else e), d', nv12_frame)
  else if fr.errinfo ≠ 0 ∨ fr.discard ≠ 0 then (.decode, d, nv12_frame)
  else if fr.eos then (.eos, d, nv12_frame)
  else
    match _us_mpp_mjpeg_copy_frame_data fr nv12_frame with
    | (e, out) => (e, d, out)

/-- The packet-submission and frame-retrieval part of one decode
(`mpp_mjpeg_decoder.c` lines 347-472), entered once the input buffer group
exists. -/
def us_mpp_mjpeg_decode_tail (d : MppProcessor) (nv12_frame : Frame)
    (env : DecEnv) : MppError × MppProcessor × Frame :=
  if ¬ env.buffer_get_ok then (.memory, d, nv12_frame)
  else if ¬ env.buffer_ptr_ok then (.memory, d, nv12_frame)
  else if ¬ env.packet_init_ok then (.memory, d, nv12_frame)
  else if ¬ d.frame_holder then (.notInitialized, d, nv12_frame)
  else if ¬ env.put_packet_ok then (.decode, d, nv12_frame)
  else
    match env.get_frame with
    | .fail isTimeout =>
      ((if isTimeout then MppError.timeout else MppError.decode), d, nv12_frame)
    | .nullFrame => (.decode, d, nv12_frame)
    | .frame fr => us_mpp_mjpeg_handle_frame d fr nv12_frame env

/-- The mutex-protected body of `us_mpp_mjpeg_decoder_decode`
(`mpp_mjpeg_decoder.c` lines 319-472), from the `used < 2` validation up to
(but excluding) the `cleanup:` label. -/
def us_mpp_mjpeg_decode_body (d : MppProcessor) (mjpeg_frame nv12_frame : Frame)
    (env : DecEnv) : MppError × MppProcessor × Frame :=
  if mjpeg_frame.used < 2 then (.invalidParam, d, nv12_frame)
  else if ¬ (mjpeg_frame.data.getD 0 0 = 0xFF ∧ mjpeg_frame.data.getD 1 0 = 0xD8) then
    (.decode, d, nv12_frame)
  else if ¬ d.pkt_grp ∧ ¬ env.pkt_grp_ok then (.memory, d, nv12_frame)
  else us_mpp_mjpeg_decode_tail (if d.pkt_grp then d else { d with pkt_grp := true })
         nv12_frame env

/-- `us_mpp_mjpeg_decoder_decode` (`mpp_mjpeg_decoder.c` lines 284-478).
Validation order is the source's: initialized, supported format, empty
frame/NULL data, then `should_stop` under the lock.  Faithful to the C,
`processing` is set on entry and never cleared, the `cleanup:` label only
increments `frame_number`, and the statistics are never updated. -/
def us_mpp_mjpeg_decoder_decode (decoder : MppProcessor) (mjpeg_frame nv12_frame : Frame)
    (env : DecEnv) : MppError × MppProcessor × Frame :=
  if ¬ decoder.initialized then (.notInitialized, decoder, nv12_frame)
  else if ¬ us_mpp_is_format_supported_for_decode mjpeg_frame.format then
    (.formatUnsupported, decoder, nv12_frame)
  else if mjpeg_frame.used = 0 ∨ mjpeg_frame.data = [] then
    (.invalidParam, decoder, nv12_frame)
  else if decoder.should_stop then (.notInitialized, decoder, nv12_frame)
  else
    let d0 := { decoder with processing := true }
    let (result, d, out) := us_mpp_mjpeg_decode_body d0 mjpeg_frame nv12_frame env
    (result, { d with frame_number := d.frame_number + 1 }, out)

/-- A freshly created, initialized MJPEG decoder processor (the state
`us_mpp_mjpeg_decoder_create` leaves behind for a 2×2 maximum geometry). -/
def testDecoder : MppProcessor :=
  { codec_is_encoder := false, initialized := true, width := 2, height := 2,
    frm_grp := true, frm_buf := List.replicate 16 0 }

/-- A valid decoded 2×2 NV12 surface as returned by `decode_get_frame`. -/
def testValidMppFrame : MppFrameOut :=
  { info_change := false, errinfo := 0, discard := 0, eos := false,
    width := 2, height := 2, hor_stride := 2, ver_stride := 2,
    buffer := some [1, 2, 3, 4, 5, 6] }

/-- A decode environment in which every MPP step succeeds and `get_frame`
delivers `testValidMppFrame`. -/
def testDecEnvValid : DecEnv := { get_frame := .frame testValidMppFrame }

/-- A well-formed 2-byte JPEG input frame (just the SOI marker). -/
def testJpegInput : Frame :=
  { format := .mjpeg, width := 2, height := 2, stride := 0,
    used := 2, allocated := 2, data := [0xFF, 0xD8] }

/-- A 1-byte JPEG input frame: shorter than 2 bytes but non-empty. -/
def testShortJpegInput : Frame :=
  { format := .mjpeg, width := 2, height := 2, stride := 0,
    used := 1, allocated := 1, data := [0xFF] }

/-- An empty destination frame for decode outputs. -/
def testDecodeDst : Frame :=
  { format := .other, width := 0, height := 0, stride := 0,
    used := 0, allocated := 0, data := [] }

/-- Helper: `_us_mpp_mjpeg_process_info_change` never touches the statistics
or the consecutive-error counter. -/
theorem mjpeg_info_change_preserves_stats (d : MppProcessor) (fr : MppFrameOut)
    (env : DecEnv) :
    (_us_mpp_mjpeg_process_info_change d fr env).2.stats = d.stats ∧
    (_us_mpp_mjpeg_process_info_change d fr env).2.consecutive_errors = d.consecutive_errors := by
  unfold _us_mpp_mjpeg_process_info_change
  dsimp only
  split_ifs <;> exact ⟨rfl, rfl⟩

/-- Helper: the frame dispatch never touches the statistics or the
consecutive-error counter. -/
theorem mjpeg_handle_frame_preserves_stats (d : MppProcessor) (fr : MppFrameOut)
    (dst : Frame) (env : DecEnv) :
    (us_mpp_mjpeg_handle_frame d fr dst env).2.1.stats = d.stats ∧
    (us_mpp_mjpeg_handle_frame d fr dst env).2.1.consecutive_errors = d.consecutive_errors := by
  unfold us_mpp_mjpeg_handle_frame
  have h := mjpeg_info_change_preserves_stats d fr env
  rcases hi : _us_mpp_mjpeg_process_info_change d fr env with ⟨e, d'⟩
  rw [hi] at h
  rcases hc : _us_mpp_mjpeg_copy_frame_data fr dst with ⟨e2, out⟩
  simp only [hi, hc]
  split_ifs <;> simp_all

/-- Helper: the submission/retrieval tail never touches the statistics or the
consecutive-error counter. -/
theorem mjpeg_decode_tail_preserves_stats (d : MppProcessor) (dst : Frame)
    (env : DecEnv) :
    (us_mpp_mjpeg_decode_tail d dst env).2.1.stats = d.stats ∧
    (us_mpp_mjpeg_decode_tail d dst env).2.1.consecutive_errors = d.consecutive_errors := by
  unfold us_mpp_mjpeg_decode_tail
  split_ifs <;> try exact ⟨rfl, rfl⟩
  cases hg : env.get_frame with
  | fail t => cases t <;> exact ⟨rfl, rfl⟩
  | nullFrame => exact ⟨rfl, rfl⟩
  | frame fr => exact mjpeg_handle_frame_preserves_stats d fr dst env

/-- Helper: the decode body never touches the statistics or the
consecutive-error counter. -/
theorem mjpeg_decode_body_preserves_stats (d : MppProcessor) (mj dst : Frame)
    (env : DecEnv) :
    (us_mpp_mjpeg_decode_body d mj dst env).2.1.stats = d.stats ∧
    (us_mpp_mjpeg_decode_body d mj dst env).2.1.consecutive_errors = d.consecutive_errors := by
  unfold us_mpp_mjpeg_decode_body
  split_ifs <;> try exact ⟨rfl, rfl⟩
  all_goals exact mjpeg_decode_tail_preserves_stats _ dst env

/-- Helper: `us_mpp_mjpeg_decoder_decode` never touches the statistics or the
consecutive-error counter on any path. -/
theorem mjpeg_decode_preserves_stats (d : MppProcessor) (mj dst : Frame)
    (env : DecEnv) :
    (us_mpp_mjpeg_decoder_decode d mj dst env).2.1.stats = d.stats ∧
    (us_mpp_mjpeg_decoder_decode d mj dst env).2.1.consecutive_errors = d.consecutive_errors := by
  unfold us_mpp_mjpeg_decoder_decode
  split_ifs <;> try exact ⟨rfl, rfl⟩
  have h := mjpeg_decode_body_preserves_stats { d with processing := true } mj dst env
  rcases hb : us_mpp_mjpeg_decode_body { d with processing := true } mj dst env with ⟨r, d', out⟩
  rw [hb] at h
  dsimp only
  rw [hb]
  exact h

/-- Helper: `_us_mpp_update_stats` on a successful encode call increments
`frames_processed` by exactly one and clears the consecutive-error counter. -/
theorem update_stats_success_encode (p : MppProcessor) (t now : Nat) :
    (_us_mpp_update_stats p t true true now).stats.frames_processed
      = p.stats.frames_processed + 1 ∧
    (_us_mpp_update_stats p t true true now).consecutive_errors = 0 := by
  unfold _us_mpp_update_stats
  dsimp only
  split_ifs <;> first | exact ⟨rfl, rfl⟩ | simp_all

/-- Helper: the output-fetch loop never touches `frames_processed` or the
consecutive-error counter (only `keyframes_generated` via packet
extraction). -/
theorem h264_fetch_loop_preserves_counters (poll : Nat → EncPoll)
    (e : MppProcessor) (f : Frame) :
    ∀ fuel n,
      (_us_mpp_h264_fetch_loop poll e f n fuel).proc.stats.frames_processed
        = e.stats.frames_processed ∧
      (_us_mpp_h264_fetch_loop poll e f n fuel).proc.consecutive_errors
        = e.consecutive_errors := by
  intro fuel
  induction fuel with
  | zero => intro n; exact ⟨rfl, rfl⟩
  | succ fuel ih =>
    intro n
    unfold _us_mpp_h264_fetch_loop
    cases hp : poll n with
    | timeout => exact ⟨rfl, rfl⟩
    | fail => exact ⟨rfl, rfl⟩
    | packet data intra =>
      simp only
      unfold _us_mpp_h264_extract_output_packet
      split_ifs <;> simp
    | nullPacket =>
      simp only
      split_ifs with h
      · exact ⟨rfl, rfl⟩
      · exact ih (n + 1)

/-- Helper: the cleanup step with an `OK` result increments
`frames_processed` by exactly one and clears the consecutive-error
counter. -/
theorem h264_finish_ok (enc : MppProcessor) (out : Frame) (env : EncEnv) :
    (_us_mpp_h264_encode_finish enc .ok out env).2.1.stats.frames_processed
      = enc.stats.frames_processed + 1 ∧
    (_us_mpp_h264_encode_finish enc .ok out env).2.1.consecutive_errors = 0 := by
  unfold _us_mpp_h264_encode_finish
  dsimp only
  exact update_stats_success_encode _ _ _

/-- Helper: the main path (fetch loop plus cleanup), when it ends `OK`,
increments `frames_processed` relative to the processor that entered the
loop and clears the consecutive-error counter. -/
theorem h264_loop_finish_ok (e : MppProcessor) (f : Frame) (env : EncEnv)
    (hok : (_us_mpp_h264_encode_finish
        (_us_mpp_h264_fetch_loop env.poll e f 0 US_MPP_H264_MAX_RETRY).proc
        (_us_mpp_h264_fetch_loop env.poll e f 0 US_MPP_H264_MAX_RETRY).result
        (_us_mpp_h264_fetch_loop env.poll e f 0 US_MPP_H264_MAX_RETRY).out env).1 = .ok) :
    (_us_mpp_h264_encode_finish
        (_us_mpp_h264_fetch_loop env.poll e f 0 US_MPP_H264_MAX_RETRY).proc
        (_us_mpp_h264_fetch_loop env.poll e f 0 US_MPP_H264_MAX_RETRY).result
        (_us_mpp_h264_fetch_loop env.poll e f 0 US_MPP_H264_MAX_RETRY).out env).2.1.stats.frames_processed
      = e.stats.frames_processed + 1 ∧
    (_us_mpp_h264_encode_finish
        (_us_mpp_h264_fetch_loop env.poll e f 0 US_MPP_H264_MAX_RETRY).proc
        (_us_mpp_h264_fetch_loop env.poll e f 0 US_MPP_H264_MAX_RETRY).result
        (_us_mpp_h264_fetch_loop env.poll e f 0 US_MPP_H264_MAX_RETRY).out env).2.1.consecutive_errors
      = 0 := by
  have hres : (_us_mpp_h264_fetch_loop env.poll e f 0 US_MPP_H264_MAX_RETRY).result = .ok := hok
  rw [hres]
  have h1 := h264_finish_ok (_us_mpp_h264_fetch_loop env.poll e f 0 US_MPP_H264_MAX_RETRY).proc
    (_us_mpp_h264_fetch_loop env.poll e f 0 US_MPP_H264_MAX_RETRY).out env
  have h2 := h264_fetch_loop_preserves_counters env.poll e f US_MPP_H264_MAX_RETRY 0
  exact ⟨h1.1.trans (by rw [h2.1]), h1.2⟩

/-- Helper: any H.264 encode call that returns `OK` increments
`frames_processed` by exactly one and clears the consecutive-error
counter. -/
theorem h264_encode_ok_updates_stats (encoder : MppProcessor) (nv12 h264 : Frame)
    (fk : Bool) (env : EncEnv)
    (hok : (us_mpp_h264_encoder_encode encoder nv12 h264 fk env).1 = .ok) :
    (us_mpp_h264_encoder_encode encoder nv12 h264 fk env).2.1.stats.frames_processed
      = encoder.stats.frames_processed + 1 ∧
    (us_mpp_h264_encoder_encode encoder nv12 h264 fk env).2.1.consecutive_errors = 0 := by
  unfold us_mpp_h264_encoder_encode at hok ⊢
  split_ifs at hok ⊢
  · exact h264_loop_finish_ok _ h264 env hok
  all_goals exact absurd hok (by simp [_us_mpp_h264_encode_finish])

/-- A freshly created, initialized H.264 encoder processor for a 2×2
geometry. -/
def testEncoder : MppProcessor :=
  { codec_is_encoder := true, initialized := true, width := 2, height := 2,
    hor_stride := 16, ver_stride := 16, frm_buf := List.replicate 8 0 }

/-- A well-formed 2×2 NV12 input frame. -/
def testNv12Input : Frame :=
  { format := .nv12, width := 2, height := 2, stride := 2,
    used := 6, allocated := 6, data := [9, 9, 9, 9, 7, 7] }

/-- An empty destination frame for encode outputs. -/
def testH264Dst : Frame :=
  { format := .other, width := 0, height := 0, stride := 0,
    used := 0, allocated := 0, data := [] }

/-- An encode environment in which `put_frame` succeeds and the first
`get_packet` poll delivers a 5-byte intra packet. -/
def testEncEnvPacket : EncEnv :=
  { putFrameOk := true, poll := fun _ => .packet [0, 0, 0, 1, 5] true }

/-- C2 counterexample.  A hardware MJPEG decode call that returns `Ok` does
NOT increment `stats.frames_processed`: on the concrete run below the decode
succeeds yet the counter stays at 0 (the decode path of
`us_mpp_mjpeg_decoder_decode` never calls `_us_mpp_update_stats`), so the
claim "every codec processor call that returns Ok increases
frames_processed by exactly 1" is false. -/
theorem C2_decoder_ok_leaves_stats_unchanged :
    (us_mpp_mjpeg_decoder_decode testDecoder testJpegInput testDecodeDst testDecEnvValid).1
      = .ok ∧
    (us_mpp_mjpeg_decoder_decode testDecoder testJpegInput testDecodeDst testDecEnvValid).2.1.stats.frames_processed
      = 0 ∧
    (us_mpp_mjpeg_decoder_decode testDecoder testJpegInput testDecodeDst testDecEnvValid).2.1.stats.frames_processed
      ≠ testDecoder.stats.frames_processed + 1 := by
  decide

/-- C2 (amended).  For every H.264 encode call that returns `Ok`,
`stats.frames_processed` increases by exactly 1 and the consecutive-error
counter equals 0 after the call; the hardware MJPEG decode call, by
contrast, never updates the statistics or the consecutive-error counter,
whatever its result. -/
theorem C2_ok_call_statistics
    (encoder : MppProcessor) (nv12 h264 : Frame) (fk : Bool) (env : EncEnv)
    (hok : (us_mpp_h264_encoder_encode encoder nv12 h264 fk env).1 = .ok)
    (d : MppProcessor) (mj dst : Frame) (denv : DecEnv) :
    ((us_mpp_h264_encoder_encode encoder nv12 h264 fk env).2.1.stats.frames_processed
        = encoder.stats.frames_processed + 1
      ∧ (us_mpp_h264_encoder_encode encoder nv12 h264 fk env).2.1.consecutive_errors = 0)
    ∧ ((us_mpp_mjpeg_decoder_decode d mj dst denv).2.1.stats = d.stats
      ∧ (us_mpp_mjpeg_decoder_decode d mj dst denv).2.1.consecutive_errors
        = d.consecutive_errors) :=
  ⟨h264_encode_ok_updates_stats encoder nv12 h264 fk env hok,
   mjpeg_decode_preserves_stats d mj dst denv⟩

/-- C2 witness: the amended statement at a concrete successful encode run
and a concrete decode run. -/
theorem C2_ok_call_statistics_witness :
    ((us_mpp_h264_encoder_encode testEncoder testNv12Input testH264Dst false testEncEnvPacket).2.1.stats.frames_processed
        = testEncoder.stats.frames_processed + 1
      ∧ (us_mpp_h264_encoder_encode testEncoder testNv12Input testH264Dst false testEncEnvPacket).2.1.consecutive_errors = 0)
    ∧ ((us_mpp_mjpeg_decoder_decode testDecoder testJpegInput testDecodeDst testDecEnvValid).2.1.stats = testDecoder.stats
      ∧ (us_mpp_mjpeg_decoder_decode testDecoder testJpegInput testDecodeDst testDecEnvValid).2.1.consecutive_errors
        = testDecoder.consecutive_errors) :=
  C2_ok_call_statistics testEncoder testNv12Input testH264Dst false testEncEnvPacket
    (by decide) testDecoder testJpegInput testDecodeDst testDecEnvValid

/-- A 2-byte input whose first bytes are not the JPEG SOI marker. -/
def testBadSoiInput : Frame :=
  { format := .jpeg, width := 2, height := 2, stride := 0,
    used := 2, allocated := 2, data := [0, 1] }

/-- C3 counterexample.  An input frame of a single byte (shorter than 2
bytes) makes `us_mpp_mjpeg_decoder_decode` return `InvalidParam`, not the
`Decode` error the claim states (the destination is indeed untouched). -/
theorem C3_short_input_invalid_param :
    (us_mpp_mjpeg_decoder_decode testDecoder testShortJpegInput testDecodeDst testDecEnvValid).1
      = .invalidParam ∧
    (us_mpp_mjpeg_decoder_decode testDecoder testShortJpegInput testDecodeDst testDecEnvValid).1
      ≠ .decode ∧
    (us_mpp_mjpeg_decoder_decode testDecoder testShortJpegInput testDecodeDst testDecEnvValid).2.2
      = testDecodeDst := by
  decide

/-- C3 (amended).  For an initialized decoder and a supported input frame:
an input shorter than 2 bytes — including an empty (`used = 0`) or NULL-data
input, rejected by the early check at `mpp_mjpeg_decoder.c:302` — returns
`InvalidParam`; an input with a non-NULL data pointer of at least 2 bytes
whose first two bytes are not `0xFF 0xD8` returns `Decode`; in both cases the
destination frame is left unchanged. -/
theorem C3_invalid_jpeg_input_handling
    (d : MppProcessor) (mj dst : Frame) (env : DecEnv)
    (hinit : d.initialized = true)
    (hfmt : us_mpp_is_format_supported_for_decode mj.format = true)
    (hstop : d.should_stop = false) :
    (mj.used = 0 ∨ mj.data = [] ∨ mj.used < 2 →
      (us_mpp_mjpeg_decoder_decode d mj dst env).1 = .invalidParam ∧
      (us_mpp_mjpeg_decoder_decode d mj dst env).2.2 = dst) ∧
    (2 ≤ mj.used → mj.data ≠ [] →
      ¬ (mj.data.getD 0 0 = 0xFF ∧ mj.data.getD 1 0 = 0xD8) →
      (us_mpp_mjpeg_decoder_decode d mj dst env).1 = .decode ∧
      (us_mpp_mjpeg_decoder_decode d mj dst env).2.2 = dst) := by
  constructor
  · intro h
    rcases Decidable.em (mj.used = 0) with h0 | h0
    · simp [us_mpp_mjpeg_decoder_decode, hinit, hfmt, h0]
    · rcases Decidable.em (mj.data = []) with he | he
      · simp [us_mpp_mjpeg_decoder_decode, hinit, hfmt, he]
      · have hlt : mj.used < 2 := by
          rcases h with h | h | h
          · exact absurd h h0
          · exact absurd h he
          · exact h
        have hnu : ¬ (mj.used = 0 ∨ mj.data = []) := by
          rintro (h | h)
          · exact h0 h
          · exact he h
        simp [us_mpp_mjpeg_decoder_decode, us_mpp_mjpeg_decode_body, hinit, hfmt, hstop,
          hnu, hlt]
  · intro hge hd hsoi
    have hnu : ¬ (mj.used = 0 ∨ mj.data = []) := by
      rintro (h | h)
      · omega
      · exact hd h
    have hlt' : ¬ mj.used < 2 := by omega
    simp only [List.getD_eq_getElem?_getD] at hsoi
    simp [us_mpp_mjpeg_decoder_decode, us_mpp_mjpeg_decode_body, hinit, hfmt, hstop, hnu,
      hlt', hsoi]

/-- An empty input frame: `used = 0` and a NULL data pointer (modelled as the
empty byte list). -/
def testEmptyJpegInput : Frame :=
  { format := .mjpeg, width := 2, height := 2, stride := 0,
    used := 0, allocated := 0, data := [] }

/-- C3 witness: the amended statement at a 1-byte input, at an empty/NULL
input, and at a 2-byte input with a wrong SOI marker. -/
theorem C3_invalid_jpeg_input_handling_witness :
    ((us_mpp_mjpeg_decoder_decode testDecoder testShortJpegInput testDecodeDst testDecEnvValid).1
        = .invalidParam ∧
      (us_mpp_mjpeg_decoder_decode testDecoder testShortJpegInput testDecodeDst testDecEnvValid).2.2
        = testDecodeDst) ∧
    ((us_mpp_mjpeg_decoder_decode testDecoder testEmptyJpegInput testDecodeDst testDecEnvValid).1
        = .invalidParam ∧
      (us_mpp_mjpeg_decoder_decode testDecoder testEmptyJpegInput testDecodeDst testDecEnvValid).2.2
        = testDecodeDst) ∧
    ((us_mpp_mjpeg_decoder_decode testDecoder testBadSoiInput testDecodeDst testDecEnvValid).1
        = .decode ∧
      (us_mpp_mjpeg_decoder_decode testDecoder testBadSoiInput testDecodeDst testDecEnvValid).2.2
        = testDecodeDst) :=
  ⟨(C3_invalid_jpeg_input_handling testDecoder testShortJpegInput testDecodeDst testDecEnvValid
      (by decide) (by decide) (by decide)).1 (by decide),
   (C3_invalid_jpeg_input_handling testDecoder testEmptyJpegInput testDecodeDst testDecEnvValid
      (by decide) (by decide) (by decide)).1 (by decide),
   (C3_invalid_jpeg_input_handling testDecoder testBadSoiInput testDecodeDst testDecEnvValid
      (by decide) (by decide) (by decide)).2 (by decide) (by decide) (by decide)⟩

/-- Helper: reallocation preserves all metadata fields. -/
theorem realloc_preserves_meta (f : Frame) (n : Nat) :
    (us_frame_realloc_data f n).format = f.format ∧
    (us_frame_realloc_data f n).width = f.width ∧
    (us_frame_realloc_data f n).height = f.height ∧
    (us_frame_realloc_data f n).stride = f.stride ∧
    (us_frame_realloc_data f n).used = f.used := by
  unfold us_frame_realloc_data
  split_ifs <;> simp

/-- Helper: `_us_mpp_mjpeg_copy_frame_data` on a frame with a non-empty
buffer holding enough bytes succeeds and populates the destination with the
NV12 metadata and the copied payload. -/
theorem copy_frame_data_populates (fr : MppFrameOut) (out : Frame) (src : List Nat)
    (hbuf : fr.buffer = some src) (hsne : src ≠ [])
    (hlen : fr.hor_stride * fr.ver_stride * 3 / 2 ≤ src.length) :
    (_us_mpp_mjpeg_copy_frame_data fr out).1 = .ok ∧
    ((_us_mpp_mjpeg_copy_frame_data fr out).2.format = .nv12 ∧
     (_us_mpp_mjpeg_copy_frame_data fr out).2.width = fr.width ∧
     (_us_mpp_mjpeg_copy_frame_data fr out).2.height = fr.height ∧
     (_us_mpp_mjpeg_copy_frame_data fr out).2.stride = fr.hor_stride ∧
     (_us_mpp_mjpeg_copy_frame_data fr out).2.used = fr.hor_stride * fr.ver_stride * 3 / 2 ∧
     (_us_mpp_mjpeg_copy_frame_data fr out).2.data.take (fr.hor_stride * fr.ver_stride * 3 / 2)
       = src.take (fr.hor_stride * fr.ver_stride * 3 / 2)) := by
  have hdiv : fr.hor_stride * fr.ver_stride + fr.hor_stride * fr.ver_stride / 2
      = fr.hor_stride * fr.ver_stride * 3 / 2 := by omega
  unfold _us_mpp_mjpeg_copy_frame_data
  rw [hbuf]
  dsimp only
  rw [if_neg hsne]
  dsimp only
  refine ⟨rfl, ?_, ?_, ?_, ?_, ?_, ?_⟩
  · exact (realloc_preserves_meta _ _).1
  · exact (realloc_preserves_meta _ _).2.1
  · exact (realloc_preserves_meta _ _).2.2.1
  · exact ((realloc_preserves_meta _ _).2.2.2.1).trans (by rw [hdiv])
  · exact ((realloc_preserves_meta _ _).2.2.2.2).trans (by rw [hdiv])
  · rw [hdiv, List.take_append_of_le_length, List.take_take]
    · simp
    · rw [List.length_take]
      omega

/-- C4.  Whenever `decode_get_frame` returns a valid frame (no info-change,
no error/discard word, not EOS) with a usable buffer, the decode call
succeeds and the destination frame is populated with format `NV12`,
`stride = hor_stride`, `used = hor_stride·ver_stride·3/2`, the decoded
geometry, and the luma+interleaved-chroma payload copied in from the MPP
buffer. -/
theorem C4_valid_frame_populates_output
    (d : MppProcessor) (mj dst : Frame) (env : DecEnv) (fr : MppFrameOut) (src : List Nat)
    (hinit : d.initialized = true) (hstop : d.should_stop = false)
    (hfh : d.frame_holder = true)
    (hfmt : us_mpp_is_format_supported_for_decode mj.format = true)
    (hdata : mj.data ≠ []) (hused : 2 ≤ mj.used)
    (hsoi0 : mj.data.getD 0 0 = 0xFF) (hsoi1 : mj.data.getD 1 0 = 0xD8)
    (hgrp : env.pkt_grp_ok = true) (hbg : env.buffer_get_ok = true)
    (hbp : env.buffer_ptr_ok = true) (hpi : env.packet_init_ok = true)
    (hpp : env.put_packet_ok = true)
    (hget : env.get_frame = .frame fr)
    (hic : fr.info_change = false) (herr : fr.errinfo = 0) (hdis : fr.discard = 0)
    (heos : fr.eos = false)
    (hbuf : fr.buffer = some src) (hsne : src ≠ [])
    (hlen : fr.hor_stride * fr.ver_stride * 3 / 2 ≤ src.length) :
    (us_mpp_mjpeg_decoder_decode d mj dst env).1 = .ok ∧
    ((us_mpp_mjpeg_decoder_decode d mj dst env).2.2.format = .nv12 ∧
     (us_mpp_mjpeg_decoder_decode d mj dst env).2.2.width = fr.width ∧
     (us_mpp_mjpeg_decoder_decode d mj dst env).2.2.height = fr.height ∧
     (us_mpp_mjpeg_decoder_decode d mj dst env).2.2.stride = fr.hor_stride ∧
     (us_mpp_mjpeg_decoder_decode d mj dst env).2.2.used
       = fr.hor_stride * fr.ver_stride * 3 / 2 ∧
     (us_mpp_mjpeg_decoder_decode d mj dst env).2.2.data.take
         (fr.hor_stride * fr.ver_stride * 3 / 2)
       = src.take (fr.hor_stride * fr.ver_stride * 3 / 2)) := by
  have hnu : ¬ (mj.used = 0 ∨ mj.data = []) := by
    rintro (h | h)
    · omega
    · exact hdata h
  have hlt : ¬ mj.used < 2 := by omega
  simp only [List.getD_eq_getElem?_getD] at hsoi0 hsoi1
  have hcopy := copy_frame_data_populates fr dst src hbuf hsne hlen
  rcases hc : _us_mpp_mjpeg_copy_frame_data fr dst with ⟨ce, cout⟩
  rw [hc] at hcopy
  cases hpg : d.pkt_grp <;>
    simp only [us_mpp_mjpeg_decoder_decode, us_mpp_mjpeg_decode_body, us_mpp_mjpeg_decode_tail,
      us_mpp_mjpeg_handle_frame, hinit, hstop, hfh, hfmt, hnu, hlt, hsoi0, hsoi1, hgrp, hbg,
      hbp, hpi, hpp, hget, hic, herr, hdis, heos, hc, hpg, not_true, not_false_iff,
      Bool.not_true, Bool.not_false, if_true, if_false, ite_true, ite_false] <;>
    simp_all

/-- C4 witness: the statement at a concrete valid 2×2 decode run. -/
theorem C4_valid_frame_populates_output_witness :
    (us_mpp_mjpeg_decoder_decode testDecoder testJpegInput testDecodeDst testDecEnvValid).1
      = .ok ∧
    ((us_mpp_mjpeg_decoder_decode testDecoder testJpegInput testDecodeDst testDecEnvValid).2.2.format
        = .nv12 ∧
     (us_mpp_mjpeg_decoder_decode testDecoder testJpegInput testDecodeDst testDecEnvValid).2.2.width
        = testValidMppFrame.width ∧
     (us_mpp_mjpeg_decoder_decode testDecoder testJpegInput testDecodeDst testDecEnvValid).2.2.height
        = testValidMppFrame.height ∧
     (us_mpp_mjpeg_decoder_decode testDecoder testJpegInput testDecodeDst testDecEnvValid).2.2.stride
        = testValidMppFrame.hor_stride ∧
     (us_mpp_mjpeg_decoder_decode testDecoder testJpegInput testDecodeDst testDecEnvValid).2.2.used
        = testValidMppFrame.hor_stride * testValidMppFrame.ver_stride * 3 / 2 ∧
     (us_mpp_mjpeg_decoder_decode testDecoder testJpegInput testDecodeDst testDecEnvValid).2.2.data.take
         (testValidMppFrame.hor_stride * testValidMppFrame.ver_stride * 3 / 2)
       = [1, 2, 3, 4, 5, 6].take
           (testValidMppFrame.hor_stride * testValidMppFrame.ver_stride * 3 / 2)) :=
  C4_valid_frame_populates_output testDecoder testJpegInput testDecodeDst testDecEnvValid
    testValidMppFrame [1, 2, 3, 4, 5, 6]
    (by decide) (by decide) (by decide) (by decide) (by decide) (by decide) (by decide)
    (by decide) (by decide) (by decide) (by decide) (by decide) (by decide) (by decide)
    (by decide) (by decide) (by decide) (by decide) (by decide) (by decide) (by decide)

/-- Helper: starting from retry count `n < 30` with fuel `30 - n`, the fetch
loop makes at most `fuel` polls and always sleeps strictly fewer times than
it polls (the 1 ms backoff only ever runs between two polls). -/
theorem h264_fetch_loop_bounds (poll : Nat → EncPoll) (e : MppProcessor) (f : Frame) :
    ∀ fuel n, n < US_MPP_H264_MAX_RETRY → n + fuel = US_MPP_H264_MAX_RETRY →
      (_us_mpp_h264_fetch_loop poll e f n fuel).polls ≤ fuel ∧
      (_us_mpp_h264_fetch_loop poll e f n fuel).sleeps
        < (_us_mpp_h264_fetch_loop poll e f n fuel).polls := by
  intro fuel
  induction fuel with
  | zero =>
    intro n hn hsum
    unfold US_MPP_H264_MAX_RETRY at hn hsum
    omega
  | succ fuel ih =>
    intro n hn hsum
    unfold _us_mpp_h264_fetch_loop
    cases hp : poll n with
    | timeout => exact ⟨by dsimp only; omega, by dsimp only; omega⟩
    | fail => exact ⟨by dsimp only; omega, by dsimp only; omega⟩
    | packet data intra =>
      dsimp only
      exact ⟨by omega, by omega⟩
    | nullPacket =>
      dsimp only
      split_ifs with h
      · exact ⟨by dsimp only; omega, by dsimp only; omega⟩
      · have hrec := ih (n + 1) (by unfold US_MPP_H264_MAX_RETRY at *; omega)
          (by unfold US_MPP_H264_MAX_RETRY at *; omega)
        dsimp only
        omega

/-- Helper: when every poll returns a NULL packet, the fetch loop exhausts
its retries, polling exactly `fuel` times, and fails with `Timeout`. -/
theorem h264_fetch_loop_all_null (poll : Nat → EncPoll) (e : MppProcessor) (f : Frame)
    (hall : ∀ i, poll i = .nullPacket) :
    ∀ fuel n, n < US_MPP_H264_MAX_RETRY → n + fuel = US_MPP_H264_MAX_RETRY →
      (_us_mpp_h264_fetch_loop poll e f n fuel).result = .timeout ∧
      (_us_mpp_h264_fetch_loop poll e f n fuel).polls = fuel := by
  intro fuel
  induction fuel with
  | zero =>
    intro n hn hsum
    unfold US_MPP_H264_MAX_RETRY at hn hsum
    omega
  | succ fuel ih =>
    intro n hn hsum
    unfold _us_mpp_h264_fetch_loop
    rw [hall n]
    dsimp only
    split_ifs with h
    · have : fuel = 0 := by unfold US_MPP_H264_MAX_RETRY at *; omega
      subst this
      exact ⟨rfl, rfl⟩
    · have hrec := ih (n + 1) (by unfold US_MPP_H264_MAX_RETRY at *; omega)
        (by unfold US_MPP_H264_MAX_RETRY at *; omega)
      exact ⟨hrec.1, by dsimp only; omega⟩

/-- Helper: a timeout on the very first poll breaks the loop with the prior
`OK` result, the processor and the output frame untouched, after a single
poll and no sleep. -/
theorem h264_fetch_loop_first_timeout (poll : Nat → EncPoll) (e : MppProcessor)
    (f : Frame) (h0 : poll 0 = .timeout) :
    _us_mpp_h264_fetch_loop poll e f 0 US_MPP_H264_MAX_RETRY
      = ⟨.ok, e, f, 1, 0⟩ := by
  have h30 : US_MPP_H264_MAX_RETRY = 29 + 1 := rfl
  rw [h30]
  unfold _us_mpp_h264_fetch_loop
  rw [h0]

/-- Helper: a non-empty packet delivered on the first poll is extracted: the
loop ends `OK` after one poll and the output frame carries the packet bytes
with the H.264 metadata. -/
theorem h264_fetch_loop_first_packet (poll : Nat → EncPoll) (e : MppProcessor)
    (f : Frame) (data : List Nat) (intra : Bool)
    (h0 : poll 0 = .packet data intra) (hne : data ≠ []) :
    (_us_mpp_h264_fetch_loop poll e f 0 US_MPP_H264_MAX_RETRY).result = .ok ∧
    (_us_mpp_h264_fetch_loop poll e f 0 US_MPP_H264_MAX_RETRY).out.format = .h264 ∧
    (_us_mpp_h264_fetch_loop poll e f 0 US_MPP_H264_MAX_RETRY).out.stride = 0 ∧
    (_us_mpp_h264_fetch_loop poll e f 0 US_MPP_H264_MAX_RETRY).out.used = data.length ∧
    (_us_mpp_h264_fetch_loop poll e f 0 US_MPP_H264_MAX_RETRY).out.data.take data.length
      = data := by
  have h30 : US_MPP_H264_MAX_RETRY = 29 + 1 := rfl
  rw [h30]
  unfold _us_mpp_h264_fetch_loop
  rw [h0]
  have hlz : ¬ data.length = 0 := by
    intro h
    exact hne (List.length_eq_zero.mp h)
  unfold _us_mpp_h264_extract_output_packet
  dsimp only
  rw [if_neg hlz]
  dsimp only
  refine ⟨rfl, ?_, ?_, ?_, ?_⟩
  · exact (realloc_preserves_meta _ _).1
  · exact (realloc_preserves_meta _ _).2.2.2.1
  · exact (realloc_preserves_meta _ _).2.2.2.2
  · exact List.take_left _ _

/-- Helper: with all input validations passing and `put_frame` succeeding,
one encode call is exactly the fetch loop followed by the cleanup. -/
theorem h264_encode_main_eq (encoder : MppProcessor) (nv12 h264 : Frame)
    (fk : Bool) (env : EncEnv)
    (hinit : encoder.initialized = true) (hstop : encoder.should_stop = false)
    (hfmt : nv12.format = .nv12) (hu : nv12.used ≠ 0) (hd : nv12.data ≠ [])
    (hput : env.putFrameOk = true) :
    us_mpp_h264_encoder_encode encoder nv12 h264 fk env
      = _us_mpp_h264_encode_finish
          (_us_mpp_h264_fetch_loop env.poll
            { encoder with
              processing := true
              frm_buf := (nv12.data.take nv12.used ++ encoder.frm_buf.drop nv12.used) }
            h264 0 US_MPP_H264_MAX_RETRY).proc
          (_us_mpp_h264_fetch_loop env.poll
            { encoder with
              processing := true
              frm_buf := (nv12.data.take nv12.used ++ encoder.frm_buf.drop nv12.used) }
            h264 0 US_MPP_H264_MAX_RETRY).result
          (_us_mpp_h264_fetch_loop env.poll
            { encoder with
              processing := true
              frm_buf := (nv12.data.take nv12.used ++ encoder.frm_buf.drop nv12.used) }
            h264 0 US_MPP_H264_MAX_RETRY).out
          env := by
  have hnu : ¬ (nv12.used = 0 ∨ nv12.data = []) := by
    rintro (h | h)
    · exact hu h
    · exact hd h
  have hfmt' : us_mpp_is_format_supported_for_encode nv12.format = true := by
    simp [us_mpp_is_format_supported_for_encode, hfmt]
  simp [us_mpp_h264_encoder_encode, hinit, hstop, hfmt', hnu, hput]

/-- An encode environment in which every poll returns a NULL packet. -/
def testEncEnvNull : EncEnv := { putFrameOk := true, poll := fun _ => .nullPacket }

/-- An encode environment in which the first poll times out. -/
def testEncEnvTimeout : EncEnv := { putFrameOk := true, poll := fun _ => .timeout }

/-- C5.  In every H.264 encode call (initialized encoder, valid NV12 input,
successful `put_frame`): the output-fetch loop polls `get_packet` at most
`US_MPP_H264_MAX_RETRY = 30` times and every 1 ms sleep lies strictly
between two polls; if every poll returns a NULL packet the retries exhaust
and the call fails with `Timeout`; a timeout returned by `get_packet` on the
first iteration leaves the call successful (`Ok`) with the output frame
untouched; and a packet delivered on the first iteration has its bytes
copied into the output frame. -/
theorem C5_encode_output_fetch_loop
    (encoder : MppProcessor) (nv12 h264 : Frame) (fk : Bool) (env : EncEnv)
    (hinit : encoder.initialized = true) (hstop : encoder.should_stop = false)
    (hfmt : nv12.format = .nv12) (hu : nv12.used ≠ 0) (hd : nv12.data ≠ [])
    (hput : env.putFrameOk = true) :
    (∀ (e : MppProcessor) (f : Frame),
       (_us_mpp_h264_fetch_loop env.poll e f 0 US_MPP_H264_MAX_RETRY).polls
         ≤ US_MPP_H264_MAX_RETRY ∧
       (_us_mpp_h264_fetch_loop env.poll e f 0 US_MPP_H264_MAX_RETRY).sleeps
         < (_us_mpp_h264_fetch_loop env.poll e f 0 US_MPP_H264_MAX_RETRY).polls) ∧
    ((∀ i, env.poll i = .nullPacket) →
       (us_mpp_h264_encoder_encode encoder nv12 h264 fk env).1 = .timeout) ∧
    (env.poll 0 = .timeout →
       (us_mpp_h264_encoder_encode encoder nv12 h264 fk env).1 = .ok ∧
       (us_mpp_h264_encoder_encode encoder nv12 h264 fk env).2.2 = h264) ∧
    (∀ data intra, env.poll 0 = .packet data intra → data ≠ [] →
       (us_mpp_h264_encoder_encode encoder nv12 h264 fk env).1 = .ok ∧
       (us_mpp_h264_encoder_encode encoder nv12 h264 fk env).2.2.used = data.length ∧
       (us_mpp_h264_encoder_encode encoder nv12 h264 fk env).2.2.data.take data.length
         = data) := by
  refine ⟨?_, ?_, ?_, ?_⟩
  · intro e f
    exact h264_fetch_loop_bounds env.poll e f US_MPP_H264_MAX_RETRY 0 (by decide) (by decide)
  · intro hall
    rw [h264_encode_main_eq encoder nv12 h264 fk env hinit hstop hfmt hu hd hput]
    exact (h264_fetch_loop_all_null env.poll _ h264 hall US_MPP_H264_MAX_RETRY 0
      (by decide) (by decide)).1
  · intro h0
    rw [h264_encode_main_eq encoder nv12 h264 fk env hinit hstop hfmt hu hd hput,
      h264_fetch_loop_first_timeout env.poll _ h264 h0]
    exact ⟨rfl, rfl⟩
  · intro data intra h0 hne
    rw [h264_encode_main_eq encoder nv12 h264 fk env hinit hstop hfmt hu hd hput]
    have hp := h264_fetch_loop_first_packet env.poll
      { encoder with
        processing := true
        frm_buf := (nv12.data.take nv12.used ++ encoder.frm_buf.drop nv12.used) }
      h264 data intra h0 hne
    exact ⟨hp.1, hp.2.2.2.1, hp.2.2.2.2⟩

/-- C5 witness: the statement at concrete runs — all-null polls give
`Timeout`, a first-poll timeout gives `Ok` with the output untouched, a
first-poll packet gives `Ok` with the bytes copied. -/
theorem C5_encode_output_fetch_loop_witness :
    ((us_mpp_h264_encoder_encode testEncoder testNv12Input testH264Dst false testEncEnvNull).1
       = .timeout) ∧
    ((us_mpp_h264_encoder_encode testEncoder testNv12Input testH264Dst false testEncEnvTimeout).1
       = .ok ∧
     (us_mpp_h264_encoder_encode testEncoder testNv12Input testH264Dst false testEncEnvTimeout).2.2
       = testH264Dst) ∧
    ((us_mpp_h264_encoder_encode testEncoder testNv12Input testH264Dst false testEncEnvPacket).1
       = .ok ∧
     (us_mpp_h264_encoder_encode testEncoder testNv12Input testH264Dst false testEncEnvPacket).2.2.used
       = [0, 0, 0, 1, 5].length ∧
     (us_mpp_h264_encoder_encode testEncoder testNv12Input testH264Dst false testEncEnvPacket).2.2.data.take
         [0, 0, 0, 1, 5].length
       = [0, 0, 0, 1, 5]) :=
  ⟨(C5_encode_output_fetch_loop testEncoder testNv12Input testH264Dst false testEncEnvNull
      (by decide) (by decide) (by decide) (by decide) (by decide) (by decide)).2.1
      (fun _ => rfl),
   (C5_encode_output_fetch_loop testEncoder testNv12Input testH264Dst false testEncEnvTimeout
      (by decide) (by decide) (by decide) (by decide) (by decide) (by decide)).2.2.1 rfl,
   (C5_encode_output_fetch_loop testEncoder testNv12Input testH264Dst false testEncEnvPacket
      (by decide) (by decide) (by decide) (by decide) (by decide) (by decide)).2.2.2
      [0, 0, 0, 1, 5] true rfl (by decide)⟩

/-- A YUYV-format frame offered to the H.264 encoder. -/
def testYuyvInput : Frame :=
  { format := .yuyv, width := 2, height := 2, stride := 4,
    used := 8, allocated := 8, data := [1, 2, 3, 4, 5, 6, 7, 8] }

/-- An NV12 frame with `used = 0` and a NULL data pointer. -/
def testEmptyNv12 : Frame :=
  { format := .nv12, width := 2, height := 2, stride := 2,
    used := 0, allocated := 0, data := [] }

/-- C10.  For an initialized encoder: a non-NV12 input makes the encode call
return `FormatUnsupported`, and an NV12 input with `used = 0` or a NULL data
pointer makes it return `InvalidParam`; in both cases the call returns with
the encoder state (input buffer, statistics, counters) and the output frame
completely unchanged. -/
theorem C10_encode_input_validation
    (encoder : MppProcessor) (nv12 h264 : Frame) (fk : Bool) (env : EncEnv)
    (hinit : encoder.initialized = true) :
    (nv12.format ≠ .nv12 →
      us_mpp_h264_encoder_encode encoder nv12 h264 fk env
        = (.formatUnsupported, encoder, h264)) ∧
    (nv12.format = .nv12 → nv12.used = 0 ∨ nv12.data = [] →
      us_mpp_h264_encoder_encode encoder nv12 h264 fk env
        = (.invalidParam, encoder, h264)) := by
  constructor
  · intro hne
    have hf : us_mpp_is_format_supported_for_encode nv12.format = false := by
      simp [us_mpp_is_format_supported_for_encode]
      exact hne
    simp [us_mpp_h264_encoder_encode, hinit, hf]
  · intro hf hz
    have hf' : us_mpp_is_format_supported_for_encode nv12.format = true := by
      simp [us_mpp_is_format_supported_for_encode, hf]
    simp [us_mpp_h264_encoder_encode, hinit, hf', hz]

/-- C10 witness: the statement at a YUYV input and at an empty NV12 input. -/
theorem C10_encode_input_validation_witness :
    (us_mpp_h264_encoder_encode testEncoder testYuyvInput testH264Dst false testEncEnvPacket
       = (.formatUnsupported, testEncoder, testH264Dst)) ∧
    (us_mpp_h264_encoder_encode testEncoder testEmptyNv12 testH264Dst false testEncEnvPacket
       = (.invalidParam, testEncoder, testH264Dst)) :=
  ⟨(C10_encode_input_validation testEncoder testYuyvInput testH264Dst false testEncEnvPacket
      (by decide)).1 (by decide),
   (C10_encode_input_validation testEncoder testEmptyNv12 testH264Dst false testEncEnvPacket
      (by decide)).2 (by decide) (by decide)⟩

/-- Modelled from the spec: `us_is_jpeg` of `libs/frame.h` (the header is not
part of the provided sources; §1/§4.C treat MJPEG and JPEG as the two JPEG
input tags). -/
def us_is_jpeg (format : PixFmt) : Bool :=
  format = .jpeg ∨ format = .mjpeg

/-- One entry of libjpeg's `comp_info` array: the per-component sampling
factors read by `us_unjpeg`. -/
structure JpegCompInfo where
  h_samp : Nat
  v_samp : Nat
  deriving DecidableEq, Repr, Inhabited

/-- The libjpeg header state `us_unjpeg` reads after `jpeg_read_header` /
`jpeg_start_decompress`: component count, sampling factors, and the output
geometry.  For `JCS_RGB` output `output_components` is 3, which is used
directly where the C reads it. -/
structure JpegInfo where
  num_components : Nat
  comps : List JpegCompInfo
  output_width : Nat
  output_height : Nat
  deriving DecidableEq, Repr

/-- The pixel payload the libjpeg library delivers (external): `raw` is the
planar I420 payload written through the row pointers of
`jpeg_read_raw_data`, `row y` is the RGB scanline delivered by the y-th
`jpeg_read_scanlines` call. -/
structure JpegLibOutput where
  raw : List Nat
  row : Nat → List Nat

/-- The 4:2:0 sampling test of `us_unjpeg` (`libs/unjpeg.c` lines 72-78):
three components, luma sampled 2×2, both chroma components 1×1. -/
def us_unjpeg_is420 (info : JpegInfo) : Bool :=
  info.num_components = 3 ∧
  (info.comps.getD 0 default).h_samp = 2 ∧ (info.comps.getD 0 default).v_samp = 2 ∧
  (info.comps.getD 1 default).h_samp = 1 ∧ (info.comps.getD 1 default).v_samp = 1 ∧
  (info.comps.getD 2 default).h_samp = 1 ∧ (info.comps.getD 2 default).v_samp = 1

/-- `us_unjpeg` (`libs/unjpeg.c` lines 47-166).  The `assert(us_is_jpeg)` is
a precondition.  The decompression error path (setjmp/longjmp returning -1)
is not modelled: the claims about this function concern complete, valid
JPEG bitstreams.  In the 4:2:0 path the scan-line loop writes the library's
raw planar output through row pointers covering exactly the three planes;
that payload is `lib.raw`.  In the RGB fallback each of the
`output_height` scanline iterations appends `stride` bytes of the library's
row to the destination. -/
def us_unjpeg (src dest : Frame) (decode : Bool) (info : JpegInfo)
    (lib : JpegLibOutput) : Int × Frame :=
  if decode ∧ us_unjpeg_is420 info then
    let d0 := us_frame_copy_meta src dest
    let w := info.output_width
    let h := info.output_height
    let d1 := { d0 with format := PixFmt.yuv420, width := w, height := h, stride := w }
    let y_size := w * h
    let c_size := (w / 2) * (h / 2)
    let need := y_size + 2 * c_size
    let d2 := us_frame_realloc_data d1 need
    let d3 := { d2 with used := need,
                        data := lib.raw.take need ++ d2.data.drop need }
    (0, d3)
  else
    let d0 := us_frame_copy_meta src dest
    -- out_color_space = JCS_RGB, so output_components = 3
    let d1 := { d0 with format := PixFmt.rgb24, width := info.output_width,
                        height := info.output_height,
                        stride := info.output_width * 3, used := 0 }
    if decode then
      let d2 := us_frame_realloc_data d1 (((d1.width * d1.height) <<< 1) * 2)
      let d3 := (List.range info.output_height).foldl
        (fun f y => us_frame_append_data f (lib.row y) f.stride) d2
      (0, d3)
    else (0, d1)

/-- Helper: appending preserves the metadata fields. -/
theorem append_preserves_meta (f : Frame) (src : List Nat) (n : Nat) :
    (us_frame_append_data f src n).format = f.format ∧
    (us_frame_append_data f src n).stride = f.stride ∧
    (us_frame_append_data f src n).width = f.width ∧
    (us_frame_append_data f src n).height = f.height := by
  unfold us_frame_append_data
  dsimp only
  refine ⟨?_, ?_, ?_, ?_⟩ <;>
    first
      | exact (realloc_preserves_meta _ _).1
      | exact (realloc_preserves_meta _ _).2.1
      | exact (realloc_preserves_meta _ _).2.2.1
      | exact (realloc_preserves_meta _ _).2.2.2.1

/-- Helper: the scanline-append fold preserves format and stride. -/
theorem unjpeg_fold_meta (g : Nat → List Nat) :
    ∀ (l : List Nat) (f : Frame),
      (l.foldl (fun f y => us_frame_append_data f (g y) f.stride) f).format = f.format ∧
      (l.foldl (fun f y => us_frame_append_data f (g y) f.stride) f).stride = f.stride := by
  intro l
  induction l with
  | nil => intro f; exact ⟨rfl, rfl⟩
  | cons a l ih =>
    intro f
    have h := append_preserves_meta f (g a) f.stride
    exact ⟨(ih _).1.trans h.1, (ih _).2.trans h.2.1⟩

/-- C6.  For a complete JPEG bitstream decoded with `decode = true`: when
the component sampling is exactly 4:2:0 (luma 2×2, both chroma 1×1) the
output frame has format I420 (`V4L2_PIX_FMT_YUV420`) with
`stride = output_width` and `used = w·h + 2·(w/2)·(h/2)`; otherwise the
output frame has format RGB24 with `stride = output_width · 3`. -/
theorem C6_unjpeg_output_format (src dest : Frame) (info : JpegInfo)
    (lib : JpegLibOutput) (_hjpeg : us_is_jpeg src.format = true) :
    (us_unjpeg_is420 info = true →
       (us_unjpeg src dest true info lib).2.format = .yuv420 ∧
       (us_unjpeg src dest true info lib).2.stride = info.output_width ∧
       (us_unjpeg src dest true info lib).2.used
         = info.output_width * info.output_height
             + 2 * ((info.output_width / 2) * (info.output_height / 2))) ∧
    (us_unjpeg_is420 info = false →
       (us_unjpeg src dest true info lib).2.format = .rgb24 ∧
       (us_unjpeg src dest true info lib).2.stride = info.output_width * 3) := by
  constructor
  · intro h420
    unfold us_unjpeg
    rw [if_pos (by simp [h420])]
    refine ⟨?_, ?_, rfl⟩
    · exact (realloc_preserves_meta _ _).1
    · exact (realloc_preserves_meta _ _).2.2.2.1
  · intro h420
    have hcond : ¬ (True ∧ us_unjpeg_is420 info = true) := by simp [h420]
    simp only [us_unjpeg]
    rw [if_neg (by simp [h420])]
    rw [if_pos trivial]
    have hf := unjpeg_fold_meta lib.row (List.range info.output_height)
    refine ⟨(hf _).1.trans ?_, (hf _).2.trans ?_⟩
    · exact (realloc_preserves_meta _ _).1
    · exact (realloc_preserves_meta _ _).2.2.2.1

/-- Header of a 1920×1080 4:2:0 three-component JPEG. -/
def testJpegInfo420 : JpegInfo :=
  { num_components := 3, comps := [⟨2, 2⟩, ⟨1, 1⟩, ⟨1, 1⟩],
    output_width := 1920, output_height := 1080 }

/-- Header of a 640×480 4:2:2 three-component JPEG. -/
def testJpegInfo422 : JpegInfo :=
  { num_components := 3, comps := [⟨2, 1⟩, ⟨1, 1⟩, ⟨1, 1⟩],
    output_width := 640, output_height := 480 }

/-- An empty library-output stub (the pixel payload is irrelevant to the
metadata claims). -/
def testJpegLib : JpegLibOutput := { raw := [], row := fun _ => [] }

/-- A JPEG source frame for the software decoder. -/
def testUnjpegSrc : Frame :=
  { format := .jpeg, width := 0, height := 0, stride := 0,
    used := 2, allocated := 2, data := [0xFF, 0xD8] }

/-- C6 witness: the statement at the 4:2:0 header (I420, stride = width) and
at the 4:2:2 header (RGB24 fallback, stride = 3·width = 1920 for a 640-wide
source). -/
theorem C6_unjpeg_output_format_witness :
    ((us_unjpeg testUnjpegSrc testDecodeDst true testJpegInfo420 testJpegLib).2.format
       = .yuv420 ∧
     (us_unjpeg testUnjpegSrc testDecodeDst true testJpegInfo420 testJpegLib).2.stride
       = testJpegInfo420.output_width ∧
     (us_unjpeg testUnjpegSrc testDecodeDst true testJpegInfo420 testJpegLib).2.used
       = testJpegInfo420.output_width * testJpegInfo420.output_height
           + 2 * ((testJpegInfo420.output_width / 2) * (testJpegInfo420.output_height / 2))) ∧
    ((us_unjpeg testUnjpegSrc testDecodeDst true testJpegInfo422 testJpegLib).2.format
       = .rgb24 ∧
     (us_unjpeg testUnjpegSrc testDecodeDst true testJpegInfo422 testJpegLib).2.stride
       = testJpegInfo422.output_width * 3) :=
  ⟨(C6_unjpeg_output_format testUnjpegSrc testDecodeDst testJpegInfo420 testJpegLib
      (by decide)).1 (by decide),
   (C6_unjpeg_output_format testUnjpegSrc testDecodeDst testJpegInfo422 testJpegLib
      (by decide)).2 (by decide)⟩

/-- The C cast chain `(uint8_t)(v < 0 ? 0 : (v > 255 ? 255 : v))`. -/
def _us_clamp_u8 (v : Int) : Nat :=
  if v < 0 then 0 else if v > 255 then 255 else v.toNat

/-- The C cast `(int32_t)q` on a real value: truncation toward zero.  The C
evaluates the BT.601 kernels in IEEE-754 double precision; they are
modelled in exact rational arithmetic, which agrees except at
double-rounding boundary cases on which no claim depends. -/
def _us_c_trunc (q : ℚ) : Int :=
  if 0 ≤ q then ⌊q⌋ else -⌊-q⌋

/-- The RGB triple `_us_mpp_convert_rgb_to_nv12` reads at pixel `(x, y)`
(source lines 80-89: BGR inputs swap the first and third byte). -/
def _us_mpp_rgb_px (rgb_frame : Frame) (x y : Nat) : Nat × Nat × Nat :=
  let i := (y * rgb_frame.width + x) * 3
  let c0 := rgb_frame.data.getD i 0
  let c1 := rgb_frame.data.getD (i + 1) 0
  let c2 := rgb_frame.data.getD (i + 2) 0
  if rgb_frame.format = .bgr24 then (c2, c1, c0) else (c0, c1, c2)

/-- The Y plane written by `_us_mpp_convert_rgb_to_nv12` (lines 75-95). -/
def _us_mpp_rgb_y_plane (rgb_frame : Frame) : List Nat :=
  (List.range (rgb_frame.height * rgb_frame.width)).map (fun k =>
    match _us_mpp_rgb_px rgb_frame (k % rgb_frame.width) (k / rgb_frame.width) with
    | (r, g, b) =>
      _us_clamp_u8 (_us_c_trunc (0.299 * (r : ℚ) + 0.587 * (g : ℚ) + 0.114 * (b : ℚ))))

/-- One interleaved chroma byte of `_us_mpp_convert_rgb_to_nv12`
(lines 98-131): the 2×2 block average of the BT.601 U (even positions) or V
(odd positions) kernel, truncated as in the C.  The map covers the
`(h/2)·(w/2)` in-plane blocks; this is exactly the C loop for even
geometries (the loop's extra partial blocks for odd geometries write past
the NV12 payload and are not modelled). -/
def _us_mpp_rgb_uv_plane (rgb_frame : Frame) : List Nat :=
  let w := rgb_frame.width
  let h := rgb_frame.height
  (List.range ((h / 2) * (w / 2) * 2)).map (fun m =>
    let k := m / 2
    let bx := (k % (w / 2)) * 2
    let byy := (k / (w / 2)) * 2
    let sum := (List.range 2).foldl (fun acc dy =>
      (List.range 2).foldl (fun acc dx =>
        if byy + dy < h ∧ bx + dx < w then
          match _us_mpp_rgb_px rgb_frame (bx + dx) (byy + dy) with
          | (r, g, b) =>
            acc + (if m % 2 = 0 then
                     _us_c_trunc ((-0.147) * (r : ℚ) - 0.289 * (g : ℚ)
                       + 0.436 * (b : ℚ) + 128)
                   else
                     _us_c_trunc (0.615 * (r : ℚ) - 0.515 * (g : ℚ)
                       - 0.100 * (b : ℚ) + 128))
        else acc) acc) (0 : Int)
    let q := if 0 ≤ sum then sum / 4 else -((-sum) / 4)
    _us_clamp_u8 q)

/-- `_us_mpp_convert_rgb_to_nv12` (mpp format converter source, lines
39-140): BT.601 software conversion of RGB24/BGR24 to NV12. -/
def _us_mpp_convert_rgb_to_nv12 (rgb_frame nv12_frame : Frame) : MppError × Frame :=
  if rgb_frame.format ≠ .rgb24 ∧ rgb_frame.format ≠ .bgr24 then
    (.formatUnsupported, nv12_frame)
  else
    let w := rgb_frame.width
    let h := rgb_frame.height
    let nv12_size := _us_mpp_calc_frame_size_by_format w h .nv12
    let d := us_frame_realloc_data nv12_frame nv12_size
    let written := _us_mpp_rgb_y_plane rgb_frame ++ _us_mpp_rgb_uv_plane rgb_frame
    (.ok, { d with data := written ++ d.data.drop written.length,
                   width := w, height := h, format := .nv12, used := nv12_size })

/-- Semantics of libyuv's `YUY2ToNV12` (external library): the luma plane is
the Y samples, each interleaved chroma row is the rounded average of the two
corresponding source rows' chroma samples.  Exact for even geometries, the
only ones the call sites produce. -/
def libyuv_YUY2ToNV12 (src : List Nat) (w h : Nat) : List Nat :=
  let yPlane := (List.range (w * h)).map (fun k => src.getD (2 * k) 0)
  let uvPlane := (List.range ((h / 2) * w)).map (fun j =>
    let r := j / w
    let c := j % w
    let a := src.getD ((2 * r) * (2 * w) + 2 * c + 1) 0
    let b := src.getD ((2 * r + 1) * (2 * w) + 2 * c + 1) 0
    (a + b + 1) / 2)
  yPlane ++ uvPlane

/-- `_us_mpp_convert_yuyv_to_nv12` (mpp format converter source, lines
143-194): YUYV to NV12 through libyuv's `YUY2ToNV12`. -/
def _us_mpp_convert_yuyv_to_nv12 (yuyv_frame nv12_frame : Frame) : MppError × Frame :=
  if yuyv_frame.format ≠ .yuyv then (.formatUnsupported, nv12_frame)
  else
    let w := yuyv_frame.width
    let h := yuyv_frame.height
    let nv12_size := _us_mpp_calc_frame_size_by_format w h .nv12
    let d := us_frame_realloc_data nv12_frame nv12_size
    let written := libyuv_YUY2ToNV12 yuyv_frame.data w h
    (.ok, { d with data := written ++ d.data.drop written.length,
                   width := w, height := h, format := .nv12, used := nv12_size })

/-- `_us_mpp_convert_nv16_to_nv12` (mpp format converter source, lines
256-312): copy the luma plane, decimate the 4:2:2 chroma vertically by
taking the first pixel of each 2×2 block.  The map covers the in-plane
blocks, exact for even geometries. -/
def _us_mpp_convert_nv16_to_nv12 (nv16_frame nv12_frame : Frame) : MppError × Frame :=
  if nv16_frame.format ≠ .nv16 then (.formatUnsupported, nv12_frame)
  else
    let w := nv16_frame.width
    let h := nv16_frame.height
    let nv12_size := _us_mpp_calc_frame_size_by_format w h .nv12
    let d := us_frame_realloc_data nv12_frame nv12_size
    let yPlane := nv16_frame.data.take (w * h)
    let uvPlane := (List.range ((h / 2) * (w / 2) * 2)).map (fun m =>
      let k := m / 2
      let hy := k / (w / 2)
      let hx := k % (w / 2)
      let idx := (2 * hy) * w + 2 * hx
      nv16_frame.data.getD (w * h + idx * 2 + m % 2) 0)
    let written := yPlane ++ uvPlane
    (.ok, { d with data := written ++ d.data.drop written.length,
                   width := w, height := h, format := .nv12, used := nv12_size })

/-- `us_mpp_convert_format` (mpp format converter source, lines 315-363):
NV12 inputs are copied verbatim; other supported formats dispatch to their
converter; only NV12 is a valid target. -/
def us_mpp_convert_format (input_frame output_frame : Frame)
    (target_format : PixFmt) : MppError × Frame :=
  if target_format ≠ .nv12 then (.formatUnsupported, output_frame)
  else if input_frame.format = .nv12 then
    let nv12_size := _us_mpp_calc_frame_size_by_format input_frame.width
      input_frame.height .nv12
    let d := us_frame_realloc_data output_frame nv12_size
    (.ok, { d with data := input_frame.data.take nv12_size ++ d.data.drop nv12_size,
                   width := input_frame.width, height := input_frame.height,
                   format := .nv12, used := nv12_size })
  else
    match input_frame.format with
    | .rgb24 => _us_mpp_convert_rgb_to_nv12 input_frame output_frame
    | .bgr24 => _us_mpp_convert_rgb_to_nv12 input_frame output_frame
    | .yuyv => _us_mpp_convert_yuyv_to_nv12 input_frame output_frame
    | .yuv420 => _us_mpp_convert_yuv420_to_nv12 input_frame output_frame
    | .nv16 => _us_mpp_convert_nv16_to_nv12 input_frame output_frame
    | _ => (.formatUnsupported, output_frame)

/-- `us_mpp_get_format_conversion_info` (mpp format converter source, lines
366-409), reduced to its observable pair (error, needs_conversion). -/
def us_mpp_get_format_conversion_info (input_format output_format : PixFmt) :
    MppError × Bool :=
  if input_format = output_format then (.ok, false)
  else
    let supported : Bool :=
      match input_format with
      | .rgb24 | .bgr24 | .yuyv | .yuv420 | .nv16 | .nv12 => output_format = .nv12
      | _ => false
    if ¬ supported then (.formatUnsupported, false)
    else (.ok, true)

/-- The observable state of a decoder freshly created for the given maximum
geometry. -/
def _us_fresh_mjpeg_decoder (max_width max_height : Nat) : MppProcessor :=
  { codec_is_encoder := false, initialized := true,
    width := max_width, height := max_height,
    frm_grp := true, frame_holder := true }

/-- `us_mpp_mjpeg_decoder_create` (`mpp_mjpeg_decoder.c` lines 210-282):
observable state of a freshly created decoder.  The MPP setup steps that can
fail (context creation, mpp_init, buffer-group and buffer allocation) are
summarized by `createOk`; on failure the surfaced error is one of the
Memory/Init kinds, represented by `Memory`. -/
def us_mpp_mjpeg_decoder_create (max_width max_height : Nat) (createOk : Bool) :
    MppError × Option MppProcessor :=
  if createOk then (.ok, some (_us_fresh_mjpeg_decoder max_width max_height))
  else (.memory, none)

/-- `us_mpp_transcoder_s` (`mpp_encoder.h` / `mpp_transcoder.c`): the
decoder slot, the encoder, the owned NV12 intermediate and conversion
frames, and the format-change cache. -/
structure Transcoder where
  initialized : Bool
  decoder : Option MppProcessor
  encoder : MppProcessor
  nv12_buffer : Frame
  conversion_buffer : Frame
  current_input_format : Option PixFmt
  needs_format_conversion : Bool
  deriving Repr

/-- Which frame `us_mpp_transcoder_process` hands to the H.264 encoder:
the transcoder-owned NV12 intermediate after a hardware decode, the caller's
frame by reference (zero copy), or the transcoder-owned conversion buffer
after a CPU convert. -/
inductive EncoderInputRef where
  | decoded
  | callerFrame
  | converted
  deriving DecidableEq, Repr

/-- External behaviour consumed by one transcoder call. -/
structure TransEnv where
  createOk : Bool := true
  dec : DecEnv
  enc : EncEnv

/-- Result of one `us_mpp_transcoder_process` call.  `encoder_input` and
`decoder_created` record which frame reached `us_mpp_h264_encoder_encode`
and the geometry passed to the lazy `us_mpp_mjpeg_decoder_create` — ghost
observations of the call's actions, `none` when the step did not happen. -/
structure TransResult where
  err : MppError
  tc : Transcoder
  out : Frame
  encoder_input : Option (EncoderInputRef × Frame)
  decoder_created : Option (Nat × Nat)

/-- Step 2 of `us_mpp_transcoder_process` (`mpp_transcoder.c` lines
197-206): encode the selected NV12 frame. -/
def _us_transcoder_encode_step (tc : Transcoder) (ref : EncoderInputRef)
    (nv12_input h264 : Frame) (force_key : Bool) (env : TransEnv)
    (created : Option (Nat × Nat)) : TransResult :=
  match us_mpp_h264_encoder_encode tc.encoder nv12_input h264 force_key env.enc with
  | (e, enc', out) =>
    ⟨e, { tc with encoder := enc' }, out, some (ref, nv12_input), created⟩

/-- The MJPEG decode step of `us_mpp_transcoder_process` (`mpp_transcoder.c`
lines 170-178): decode into the owned NV12 intermediate and, on success,
encode it. -/
def _us_transcoder_decode_step (tc : Transcoder) (dec : MppProcessor)
    (input h264 : Frame) (force_key : Bool) (env : TransEnv)
    (created : Option (Nat × Nat)) : TransResult :=
  match us_mpp_mjpeg_decoder_decode dec input tc.nv12_buffer env.dec with
  | (e, dec', buf') =>
    let tc' := { tc with decoder := some dec', nv12_buffer := buf' }
    if e ≠ .ok then ⟨e, tc', h264, none, created⟩
    else _us_transcoder_encode_step tc' .decoded buf' h264 force_key env created

/-- The format-change bookkeeping of `us_mpp_transcoder_process`
(`mpp_transcoder.c` lines 127-151): cache the input format and whether a
CPU conversion is required (never for MJPEG/JPEG, which go through the
hardware decoder). -/
def _us_transcoder_note_format (tc : Transcoder) (input_frame : Frame) : Transcoder :=
  if tc.current_input_format ≠ some input_frame.format then
    if input_frame.format = .mjpeg ∨ input_frame.format = .jpeg then
      { tc with current_input_format := some input_frame.format,
                needs_format_conversion := false }
    else
      { tc with current_input_format := some input_frame.format,
                needs_format_conversion :=
                  (us_mpp_get_format_conversion_info input_frame.format .nv12).2 }
  else tc

/-- Helper: the bookkeeping step only touches the cached format fields. -/
theorem transcoder_note_format_fields (tc : Transcoder) (input_frame : Frame) :
    (_us_transcoder_note_format tc input_frame).decoder = tc.decoder ∧
    (_us_transcoder_note_format tc input_frame).encoder = tc.encoder ∧
    (_us_transcoder_note_format tc input_frame).nv12_buffer = tc.nv12_buffer ∧
    (_us_transcoder_note_format tc input_frame).conversion_buffer = tc.conversion_buffer := by
  unfold _us_transcoder_note_format
  split_ifs <;> exact ⟨rfl, rfl, rfl, rfl⟩

/-- `us_mpp_transcoder_process` (`mpp_transcoder.c` lines 102-211):
format-change bookkeeping, then dispatch — MJPEG/JPEG through the lazily
created hardware decoder into the owned NV12 intermediate, NV12 by
reference, any other supported format through the CPU converter into the
owned conversion frame — and finally the H.264 encode. -/
def us_mpp_transcoder_process (tc : Transcoder) (input_frame h264_frame : Frame)
    (force_key : Bool) (env : TransEnv) : TransResult :=
  if ¬ tc.initialized then ⟨.notInitialized, tc, h264_frame, none, none⟩
  else if ¬ us_mpp_is_format_supported input_frame.format then
    ⟨.formatUnsupported, tc, h264_frame, none, none⟩
  else
    if tc.current_input_format ≠ some input_frame.format ∧
        ¬ (input_frame.format = .mjpeg ∨ input_frame.format = .jpeg) ∧
        (us_mpp_get_format_conversion_info input_frame.format .nv12).1 ≠ .ok then
      ⟨(us_mpp_get_format_conversion_info input_frame.format .nv12).1, tc,
        h264_frame, none, none⟩
    else
    let tc := _us_transcoder_note_format tc input_frame
    if input_frame.format = .mjpeg ∨ input_frame.format = .jpeg then
      match tc.decoder with
      | none =>
        match us_mpp_mjpeg_decoder_create input_frame.width input_frame.height
          env.createOk with
        | (e, none) => ⟨e, tc, h264_frame, none, some (input_frame.width, input_frame.height)⟩
        | (_, some dec) =>
          _us_transcoder_decode_step { tc with decoder := some dec } dec input_frame
            h264_frame force_key env (some (input_frame.width, input_frame.height))
      | some dec =>
        _us_transcoder_decode_step tc dec input_frame h264_frame force_key env none
    else if input_frame.format = .nv12 then
      _us_transcoder_encode_step tc .callerFrame input_frame h264_frame force_key env none
    else
      match us_mpp_convert_format input_frame tc.conversion_buffer .nv12 with
      | (e, conv') =>
        let tc' := { tc with conversion_buffer := conv' }
        if e ≠ .ok then ⟨e, tc', h264_frame, none, none⟩
        else _us_transcoder_encode_step tc' .converted conv' h264_frame force_key env none

/-- Helper: the encode step hands exactly the selected frame to the encoder
and leaves the owned buffers and the creation record unchanged. -/
theorem transcoder_encode_step_obs (tc : Transcoder) (ref : EncoderInputRef)
    (nv12_input h264 : Frame) (fk : Bool) (env : TransEnv)
    (created : Option (Nat × Nat)) :
    (_us_transcoder_encode_step tc ref nv12_input h264 fk env created).encoder_input
      = some (ref, nv12_input) ∧
    (_us_transcoder_encode_step tc ref nv12_input h264 fk env created).tc.nv12_buffer
      = tc.nv12_buffer ∧
    (_us_transcoder_encode_step tc ref nv12_input h264 fk env created).tc.conversion_buffer
      = tc.conversion_buffer ∧
    (_us_transcoder_encode_step tc ref nv12_input h264 fk env created).decoder_created
      = created := by
  unfold _us_transcoder_encode_step
  rcases he : us_mpp_h264_encoder_encode tc.encoder nv12_input h264 fk env.enc
    with ⟨e, enc', out⟩
  simp [he]

/-- Helper: a successful decode step feeds the decoded owned NV12
intermediate to the encoder. -/
theorem transcoder_decode_step_obs (tc : Transcoder) (dec : MppProcessor)
    (input h264 : Frame) (fk : Bool) (env : TransEnv) (created : Option (Nat × Nat))
    (hok : (us_mpp_mjpeg_decoder_decode dec input tc.nv12_buffer env.dec).1 = .ok) :
    (_us_transcoder_decode_step tc dec input h264 fk env created).encoder_input
      = some (.decoded,
          (us_mpp_mjpeg_decoder_decode dec input tc.nv12_buffer env.dec).2.2) ∧
    (_us_transcoder_decode_step tc dec input h264 fk env created).tc.nv12_buffer
      = (us_mpp_mjpeg_decoder_decode dec input tc.nv12_buffer env.dec).2.2 ∧
    (_us_transcoder_decode_step tc dec input h264 fk env created).decoder_created
      = created := by
  unfold _us_transcoder_decode_step
  rcases hd : us_mpp_mjpeg_decoder_decode dec input tc.nv12_buffer env.dec
    with ⟨e, dec', buf'⟩
  rw [hd] at hok
  have he : e = .ok := hok
  subst he
  simp only [hd]
  have hobs := transcoder_encode_step_obs
    { tc with decoder := some dec', nv12_buffer := buf' } .decoded buf' h264 fk env created
  simp_all

/-- Helper: the decode step always records the creation information it was
given. -/
theorem transcoder_decode_step_created (tc : Transcoder) (dec : MppProcessor)
    (input h264 : Frame) (fk : Bool) (env : TransEnv) (created : Option (Nat × Nat)) :
    (_us_transcoder_decode_step tc dec input h264 fk env created).decoder_created
      = created := by
  unfold _us_transcoder_decode_step
  rcases hd : us_mpp_mjpeg_decoder_decode dec input tc.nv12_buffer env.dec
    with ⟨e, dec', buf'⟩
  dsimp only
  split_ifs
  · rfl
  · exact (transcoder_encode_step_obs _ _ _ _ _ _ _).2.2.2

/-- C7.  For every frame handled by the transcoder (initialized): MJPEG/JPEG
inputs lazily instantiate the hardware decoder with the first frame's
geometry and, when the decode succeeds, the decoded owned NV12 intermediate
is fed to the H.264 encoder; NV12 inputs are fed to the encoder by
reference, with the owned intermediate and conversion frames untouched;
any other supported input is CPU-converted into the owned conversion frame,
which is then fed to the encoder. -/
theorem C7_transcoder_process_dispatch
    (tc : Transcoder) (input h264 : Frame) (fk : Bool) (env : TransEnv)
    (hinit : tc.initialized = true) :
    ((input.format = .mjpeg ∨ input.format = .jpeg) → tc.decoder = none →
      env.createOk = true →
      (us_mpp_transcoder_process tc input h264 fk env).decoder_created
        = some (input.width, input.height) ∧
      ((us_mpp_mjpeg_decoder_decode (_us_fresh_mjpeg_decoder input.width input.height)
          input tc.nv12_buffer env.dec).1 = .ok →
        (us_mpp_transcoder_process tc input h264 fk env).encoder_input
          = some (.decoded,
              (us_mpp_mjpeg_decoder_decode (_us_fresh_mjpeg_decoder input.width input.height)
                input tc.nv12_buffer env.dec).2.2))) ∧
    (input.format = .nv12 →
      (us_mpp_transcoder_process tc input h264 fk env).encoder_input
        = some (.callerFrame, input) ∧
      (us_mpp_transcoder_process tc input h264 fk env).tc.nv12_buffer
        = tc.nv12_buffer ∧
      (us_mpp_transcoder_process tc input h264 fk env).tc.conversion_buffer
        = tc.conversion_buffer) ∧
    (us_mpp_is_format_supported input.format = true →
      input.format ≠ .mjpeg → input.format ≠ .jpeg → input.format ≠ .nv12 →
      (us_mpp_convert_format input tc.conversion_buffer .nv12).1 = .ok →
      (us_mpp_transcoder_process tc input h264 fk env).encoder_input
        = some (.converted, (us_mpp_convert_format input tc.conversion_buffer .nv12).2) ∧
      (us_mpp_transcoder_process tc input h264 fk env).tc.conversion_buffer
        = (us_mpp_convert_format input tc.conversion_buffer .nv12).2) := by
  refine ⟨?_, ?_, ?_⟩
  · intro hm hdec hco
    have hsup : us_mpp_is_format_supported input.format = true := by
      rcases hm with h | h <;> simp [us_mpp_is_format_supported, h]
    have hnf := transcoder_note_format_fields tc input
    unfold us_mpp_transcoder_process
    rw [if_neg (by simp [hinit]), if_neg (by simp [hsup]), if_neg (by simp [hm]),
      if_pos (by simp [hm])]
    rw [hnf.1, hdec, hco]
    unfold us_mpp_mjpeg_decoder_create
    rw [if_pos rfl]
    dsimp only
    refine ⟨transcoder_decode_step_created _ _ _ _ _ _ _, ?_⟩
    intro hok
    have hbuf : ({ _us_transcoder_note_format tc input with
        decoder := some (_us_fresh_mjpeg_decoder input.width input.height) } : Transcoder).nv12_buffer
        = tc.nv12_buffer := hnf.2.2.1
    have hok' : (us_mpp_mjpeg_decoder_decode
        (_us_fresh_mjpeg_decoder input.width input.height) input
        ({ _us_transcoder_note_format tc input with
          decoder := some (_us_fresh_mjpeg_decoder input.width input.height) } : Transcoder).nv12_buffer
        env.dec).1 = .ok := by
      rw [hbuf]; exact hok
    have hobs := transcoder_decode_step_obs
      { _us_transcoder_note_format tc input with
        decoder := some (_us_fresh_mjpeg_decoder input.width input.height) }
      (_us_fresh_mjpeg_decoder input.width input.height) input h264 fk env
      (some (input.width, input.height)) hok'
    rw [hobs.1, hbuf]
  · intro hfmt
    have hsup : us_mpp_is_format_supported input.format = true := by
      simp [us_mpp_is_format_supported, hfmt]
    have hnm : ¬ (input.format = .mjpeg ∨ input.format = .jpeg) := by simp [hfmt]
    have hnf := transcoder_note_format_fields tc input
    unfold us_mpp_transcoder_process
    rw [if_neg (by simp [hinit]), if_neg (by simp [hsup]),
      if_neg (by simp [hfmt, us_mpp_get_format_conversion_info]),
      if_neg hnm, if_pos hfmt]
    have hobs := transcoder_encode_step_obs (_us_transcoder_note_format tc input)
      .callerFrame input h264 fk env none
    exact ⟨hobs.1, hobs.2.1.trans hnf.2.2.1, hobs.2.2.1.trans hnf.2.2.2⟩
  · intro hsup hm hj hn hok
    have hnm : ¬ (input.format = .mjpeg ∨ input.format = .jpeg) := by
      rintro (h | h)
      · exact hm h
      · exact hj h
    have hinfo : (us_mpp_get_format_conversion_info input.format .nv12).1 = .ok := by
      cases hfm : input.format <;>
        simp_all [us_mpp_get_format_conversion_info, us_mpp_is_format_supported]
    have hnf := transcoder_note_format_fields tc input
    unfold us_mpp_transcoder_process
    rw [if_neg (by simp [hinit]), if_neg (by simp [hsup]),
      if_neg (by simp [hinfo]), if_neg hnm, if_neg hn]
    rw [hnf.2.2.2]
    rcases hcv : us_mpp_convert_format input tc.conversion_buffer .nv12 with ⟨e, conv'⟩
    rw [hcv] at hok
    have he : e = .ok := hok
    subst he
    dsimp only
    rw [if_neg (by simp)]
    have hobs := transcoder_encode_step_obs
      { _us_transcoder_note_format tc input with conversion_buffer := conv' }
      .converted conv' h264 fk env none
    exact ⟨hobs.1, hobs.2.2.1⟩

/-- A freshly created transcoder (no decoder yet) over the 2×2 test
encoder. -/
def testTranscoder : Transcoder :=
  { initialized := true, decoder := none, encoder := testEncoder,
    nv12_buffer := testDecodeDst, conversion_buffer := testDecodeDst,
    current_input_format := none, needs_format_conversion := false }

/-- A transcoder environment with a working decoder path and a working
encoder path. -/
def testTransEnv : TransEnv := { dec := testDecEnvValid, enc := testEncEnvPacket }

/-- C7 witness: the statement at a concrete MJPEG input (lazy decoder
creation and decode), a concrete NV12 input (zero-copy pass-through), and a
concrete YUYV input (CPU conversion). -/
theorem C7_transcoder_process_dispatch_witness :
    ((us_mpp_transcoder_process testTranscoder testJpegInput testH264Dst false testTransEnv).decoder_created
       = some (testJpegInput.width, testJpegInput.height) ∧
     (us_mpp_transcoder_process testTranscoder testJpegInput testH264Dst false testTransEnv).encoder_input
       = some (.decoded,
           (us_mpp_mjpeg_decoder_decode
             (_us_fresh_mjpeg_decoder testJpegInput.width testJpegInput.height)
             testJpegInput testTranscoder.nv12_buffer testTransEnv.dec).2.2)) ∧
    ((us_mpp_transcoder_process testTranscoder testNv12Input testH264Dst false testTransEnv).encoder_input
       = some (.callerFrame, testNv12Input)) ∧
    ((us_mpp_transcoder_process testTranscoder testYuyvInput testH264Dst false testTransEnv).encoder_input
       = some (.converted,
           (us_mpp_convert_format testYuyvInput testTranscoder.conversion_buffer .nv12).2)) :=
  have h1 := C7_transcoder_process_dispatch testTranscoder testJpegInput testH264Dst false
    testTransEnv (by decide)
  have h2 := C7_transcoder_process_dispatch testTranscoder testNv12Input testH264Dst false
    testTransEnv (by decide)
  have h3 := C7_transcoder_process_dispatch testTranscoder testYuyvInput testH264Dst false
    testTransEnv (by decide)
  have ha := h1.1 (by decide) (by decide) (by decide)
  ⟨⟨ha.1, ha.2 (by decide)⟩,
   (h2.2.1 (by decide)).1,
   (h3.2.2 (by decide) (by decide) (by decide) (by decide) (by decide)).1⟩

/-- `us_drm_center_s` (`libs/drm/drm.h`): the centering rectangle computed
by `_drm_calculate_center`. -/
structure DrmCenter where
  src_width : Nat
  src_height : Nat
  dst_width : Nat
  dst_height : Nat
  offset_x : Nat
  offset_y : Nat
  needs_center : Bool
  deriving DecidableEq, Repr

/-- `_drm_calculate_center` (`libs/drm/drm.c` lines 1175-1193). -/
def _drm_calculate_center (src_w src_h dst_w dst_h : Nat) : DrmCenter :=
  if src_w ≤ dst_w ∧ src_h ≤ dst_h then
    { src_width := src_w, src_height := src_h, dst_width := dst_w, dst_height := dst_h,
      offset_x := (dst_w - src_w) / 2, offset_y := (dst_h - src_h) / 2,
      needs_center := true }
  else
    { src_width := src_w, src_height := src_h, dst_width := dst_w, dst_height := dst_h,
      offset_x := 0, offset_y := 0, needs_center := false }

/-- Write the given bytes into destination memory (a byte-indexed function)
starting at `base`. -/
def writeBytes (d : Nat → Nat) (base : Nat) (bytes : List Nat) : Nat → Nat :=
  fun i => if base ≤ i ∧ i < base + bytes.length then bytes.getD (i - base) (d i) else d i

/-- The inner (column) loop of `_drm_convert_rgb24` (`libs/drm/drm.c` lines
1265-1279), as fuel recursion: the loop condition stops the row, the
`src_pos + 2 >= src_stride` check breaks it, and each surviving pixel writes
BGRA (4-byte destinations) or RGB (otherwise) at
`(y + offset_y)·stride + (offset_x + x)·bpp`. -/
def _drm_convert_rgb24_cols (src_data : Nat → Nat) (src_w : Nat) (c : DrmCenter)
    (dst_stride bpp dst_w : Nat) (y : Nat) : Nat → Nat → (Nat → Nat) → (Nat → Nat)
  | _, 0, d => d
  | x, fuel + 1, d =>
    if x < src_w ∧ x < c.src_width ∧ x + c.offset_x < dst_w then
      if x * 3 + 2 ≥ src_w * 3 then d
      else
        let src_pos := x * 3
        let r := src_data (y * (src_w * 3) + src_pos)
        let g := src_data (y * (src_w * 3) + src_pos + 1)
        let b := src_data (y * (src_w * 3) + src_pos + 2)
        let bytes := if bpp = 4 then [b, g, r, 0xFF] else [r, g, b]
        let base := (y + c.offset_y) * dst_stride + (c.offset_x + x) * bpp
        _drm_convert_rgb24_cols src_data src_w c dst_stride bpp dst_w y
          (x + 1) fuel (writeBytes d base bytes)
    else d

/-- The outer (row) loop of `_drm_convert_rgb24` (`libs/drm/drm.c` lines
1261-1280). -/
def _drm_convert_rgb24_rows (src_data : Nat → Nat) (src_w src_h : Nat) (c : DrmCenter)
    (dst_stride bpp dst_w dst_h : Nat) : Nat → Nat → (Nat → Nat) → (Nat → Nat)
  | _, 0, d => d
  | y, fuel + 1, d =>
    if y < src_h ∧ y < c.src_height ∧ y + c.offset_y < dst_h then
      _drm_convert_rgb24_rows src_data src_w src_h c dst_stride bpp dst_w dst_h
        (y + 1) fuel
        (_drm_convert_rgb24_cols src_data src_w c dst_stride bpp dst_w y 0 src_w d)
    else d

/-- `_drm_convert_rgb24` (`libs/drm/drm.c` lines 1257-1281): copy an RGB24
source into the destination surface at the centering offset.  Source and
destination memory are byte-indexed functions. -/
def _drm_convert_rgb24 (src_data : Nat → Nat) (src_w src_h : Nat)
    (dst_data : Nat → Nat) (c : DrmCenter) (dst_stride dst_bpp dst_w dst_h : Nat) :
    Nat → Nat :=
  let bytes_per_pixel := dst_bpp / 8
  _drm_convert_rgb24_rows src_data src_w src_h c dst_stride bytes_per_pixel dst_w dst_h
    0 src_h dst_data

/-- The pixel row a destination byte index belongs to. -/
def byteRow (dst_stride i : Nat) : Nat := i / dst_stride

/-- The pixel column a destination byte index belongs to. -/
def byteCol (dst_stride bpp i : Nat) : Nat := (i % dst_stride) / bpp

theorem writeBytes_outside (d : Nat → Nat) (base : Nat) (bytes : List Nat) (i : Nat)
    (h : i < base ∨ base + bytes.length ≤ i) : writeBytes d base bytes i = d i := by
  unfold writeBytes
  split_ifs with hc
  · exact absurd hc (by omega)
  · rfl

theorem drm_byte_coords (q s bpp m i : Nat) (hb : 0 < bpp)
    (h1 : q * s + m * bpp ≤ i) (h2 : i < q * s + m * bpp + bpp)
    (hlt : m * bpp + bpp ≤ s) :
    i / s = q ∧ (i % s) / bpp = m := by
  have hs : 0 < s :=
    Nat.lt_of_lt_of_le (Nat.lt_of_lt_of_le hb (Nat.le_add_left bpp (m * bpp))) hlt
  obtain ⟨k, hk, rfl⟩ : ∃ k, k < bpp ∧ i = q * s + m * bpp + k := by
    refine ⟨i - (q * s + m * bpp), ?_, ?_⟩ <;> omega
  have hsmall : m * bpp + k < s :=
    Nat.lt_of_lt_of_le (Nat.add_lt_add_left hk (m * bpp)) hlt
  constructor
  · rw [Nat.add_assoc, Nat.mul_comm q s, Nat.mul_add_div hs, Nat.div_eq_of_lt hsmall,
      Nat.add_zero]
  · rw [Nat.add_assoc, Nat.mul_comm q s, Nat.mul_add_mod, Nat.mod_eq_of_lt hsmall,
      Nat.mul_comm m bpp, Nat.mul_add_div hb, Nat.div_eq_of_lt hk, Nat.add_zero]

theorem drm_cols_outside (src_data : Nat → Nat) (src_w : Nat) (c : DrmCenter)
    (dst_stride bpp dst_w y : Nat)
    (hbpp : bpp = 3 ∨ bpp = 4) (hstride : dst_w * bpp ≤ dst_stride) (i : Nat)
    (hout : ¬ (i / dst_stride = y + c.offset_y ∧
        c.offset_x ≤ (i % dst_stride) / bpp ∧ (i % dst_stride) / bpp < c.offset_x + src_w)) :
    ∀ (fuel x : Nat) (d : Nat → Nat),
      _drm_convert_rgb24_cols src_data src_w c dst_stride bpp dst_w y x fuel d i = d i := by
  intro fuel
  induction fuel with
  | zero => intro x d; rfl
  | succ n ih =>
    intro x d
    simp only [_drm_convert_rgb24_cols]
    split_ifs with hc hb h4
    · rfl
    · obtain ⟨hxs, _, hxw⟩ := hc
      subst h4
      rw [ih]
      apply writeBytes_outside
      by_contra hin
      push_neg at hin
      obtain ⟨h1, h2⟩ := hin
      simp only [List.length_cons, List.length_nil] at h2
      have hq := drm_byte_coords (y + c.offset_y) dst_stride 4 (c.offset_x + x) i
        (by omega) h1 (by omega) (by omega)
      refine hout ⟨hq.1, ?_, ?_⟩
      · rw [hq.2]; exact Nat.le_add_right _ _
      · rw [hq.2]; omega
    · obtain ⟨hxs, _, hxw⟩ := hc
      have h3 : bpp = 3 := hbpp.resolve_right h4
      subst h3
      rw [ih]
      apply writeBytes_outside
      by_contra hin
      push_neg at hin
      obtain ⟨h1, h2⟩ := hin
      simp only [List.length_cons, List.length_nil] at h2
      have hq := drm_byte_coords (y + c.offset_y) dst_stride 3 (c.offset_x + x) i
        (by omega) h1 (by omega) (by omega)
      refine hout ⟨hq.1, ?_, ?_⟩
      · rw [hq.2]; exact Nat.le_add_right _ _
      · rw [hq.2]; omega
    · rfl

theorem drm_rows_outside (src_data : Nat → Nat) (src_w src_h : Nat) (c : DrmCenter)
    (dst_stride bpp dst_w dst_h : Nat)
    (hbpp : bpp = 3 ∨ bpp = 4) (hstride : dst_w * bpp ≤ dst_stride) (i : Nat)
    (hout : ¬ (c.offset_y ≤ i / dst_stride ∧ i / dst_stride < c.offset_y + src_h ∧
        c.offset_x ≤ (i % dst_stride) / bpp ∧ (i % dst_stride) / bpp < c.offset_x + src_w)) :
    ∀ (fuel y : Nat) (d : Nat → Nat),
      _drm_convert_rgb24_rows src_data src_w src_h c dst_stride bpp dst_w dst_h
        y fuel d i = d i := by
  intro fuel
  induction fuel with
  | zero => intro y d; rfl
  | succ n ih =>
    intro y d
    simp only [_drm_convert_rgb24_rows]
    split_ifs with hc
    · obtain ⟨hy1, _, _⟩ := hc
      have hout2 : ¬ (i / dst_stride = y + c.offset_y ∧
          c.offset_x ≤ (i % dst_stride) / bpp ∧ (i % dst_stride) / bpp < c.offset_x + src_w) := by
        intro hrow
        refine hout ⟨?_, ?_, hrow.2.1, hrow.2.2⟩
        · rw [hrow.1]; omega
        · rw [hrow.1]; omega
      rw [ih, drm_cols_outside src_data src_w c dst_stride bpp dst_w y hbpp hstride i hout2]
    · rfl

/-- C8: when the capture geometry fits the display mode (`src_w ≤ dst_w` and
`src_h ≤ dst_h`), `_drm_calculate_center` yields exactly
`offset_x = (dst_w - src_w) / 2` and `offset_y = (dst_h - src_h) / 2` (integer
division) with centering enabled, and `_drm_convert_rgb24` leaves every
destination byte outside the rectangle
`[offset_x, offset_x + src_w) × [offset_y, offset_y + src_h)` untouched
(for the 24- and 32-bit destination formats the display engine uses, with a
destination stride that holds `dst_w` pixels). -/
theorem C8_display_centering (src_w src_h dst_w dst_h ox oy : Nat)
    (hw : src_w ≤ dst_w) (hh : src_h ≤ dst_h)
    (hox : ox = (dst_w - src_w) / 2) (hoy : oy = (dst_h - src_h) / 2)
    (src_data dst_data : Nat → Nat) (dst_stride dst_bpp : Nat)
    (hbpp : dst_bpp = 24 ∨ dst_bpp = 32)
    (hstride : dst_w * (dst_bpp / 8) ≤ dst_stride) (i : Nat)
    (hi : ¬ (oy ≤ byteRow dst_stride i ∧ byteRow dst_stride i < oy + src_h ∧
             ox ≤ byteCol dst_stride (dst_bpp / 8) i ∧
             byteCol dst_stride (dst_bpp / 8) i < ox + src_w)) :
    (_drm_calculate_center src_w src_h dst_w dst_h).offset_x = ox ∧
    (_drm_calculate_center src_w src_h dst_w dst_h).offset_y = oy ∧
    (_drm_calculate_center src_w src_h dst_w dst_h).needs_center = true ∧
    _drm_convert_rgb24 src_data src_w src_h dst_data
      (_drm_calculate_center src_w src_h dst_w dst_h) dst_stride dst_bpp dst_w dst_h i
      = dst_data i := by
  subst hox
  subst hoy
  have hc : _drm_calculate_center src_w src_h dst_w dst_h =
      { src_width := src_w
        src_height := src_h
        dst_width := dst_w
        dst_height := dst_h
        offset_x := (dst_w - src_w) / 2
        offset_y := (dst_h - src_h) / 2
        needs_center := true } := by
    unfold _drm_calculate_center
    rw [if_pos ⟨hw, hh⟩]
  have hbpp8 : dst_bpp / 8 = 3 ∨ dst_bpp / 8 = 4 := by
    rcases hbpp with h | h <;> subst h
    · exact Or.inl rfl
    · exact Or.inr rfl
  refine ⟨by rw [hc], by rw [hc], by rw [hc], ?_⟩
  rw [hc]
  exact drm_rows_outside src_data src_w src_h _ dst_stride (dst_bpp / 8) dst_w dst_h
    hbpp8 hstride i hi src_h 0 dst_data

theorem C8_display_centering_witness :
    ((2:Nat) ≤ 4 ∧ (1:Nat) = (4 - 2) / 2 ∧ ((32:Nat) = 24 ∨ (32:Nat) = 32) ∧
      4 * (32 / 8) ≤ 16 ∧
      ¬ ((1:Nat) ≤ byteRow 16 0 ∧ byteRow 16 0 < 1 + 2 ∧ 1 ≤ byteCol 16 (32 / 8) 0 ∧
          byteCol 16 (32 / 8) 0 < 1 + 2)) ∧
    ((_drm_calculate_center 2 2 4 4).offset_x = 1 ∧
     (_drm_calculate_center 2 2 4 4).offset_y = 1 ∧
     (_drm_calculate_center 2 2 4 4).needs_center = true ∧
     _drm_convert_rgb24 (fun _ => 7) 2 2 (fun _ => 9) (_drm_calculate_center 2 2 4 4)
       16 32 4 4 0 = (fun _ => (9:Nat)) 0) :=
  ⟨⟨by decide, by decide, by decide, by decide, by decide⟩,
   C8_display_centering 2 2 4 4 1 1 (by decide) (by decide) (by decide) (by decide)
     (fun _ => 7) (fun _ => 9) 16 32 (by decide) (by decide) 0 (by decide)⟩

/-- `drmModeModeInfo`, restricted to the fields `_find_best_mode` and
`_get_refresh_rate` read: the `DRM_MODE_FLAG_INTERLACE` / `DRM_MODE_FLAG_DBLSCAN`
flag bits and the `DRM_MODE_TYPE_PREFERRED` type bit are modelled as booleans. -/
structure DrmModeInfo where
  clock : Nat
  hdisplay : Nat
  vdisplay : Nat
  htotal : Nat
  vtotal : Nat
  vscan : Nat
  flags_interlace : Bool
  flags_dblscan : Bool
  type_preferred : Bool
  deriving DecidableEq, Repr

/-- `_get_refresh_rate` (`libs/drm/drm.c` lines 1161-1173): the rounded
integer millihertz value, then the `(float)mhz / 1000` conversion modelled
exactly over ℚ. -/
def _get_refresh_rate (mode : DrmModeInfo) : ℚ :=
  let mhz := (mode.clock * 1000000 / mode.htotal + mode.vtotal / 2) / mode.vtotal
  let mhz := if mode.flags_interlace then mhz * 2 else mhz
  let mhz := if mode.flags_dblscan then mhz / 2 else mhz
  let mhz := if mode.vscan > 1 then mhz / mode.vscan else mhz
  (mhz : ℚ) / 1000

/-- The `closest == NULL || _get_refresh_rate(closest) != hz` test guarding the
`closest` update in `_find_best_mode` (`libs/drm/drm.c` line 1070). -/
def _closest_replaceable (closest : Option DrmModeInfo) (hz : ℚ) : Bool :=
  match closest with
  | none => true
  | some cm => if _get_refresh_rate cm = hz then false else true

/-- The scanning loop of `_find_best_mode` (`libs/drm/drm.c` lines 1048-1077)
over the connector's mode list, carrying the `best`/`closest`/`pref`
accumulators.  Interlaced modes are skipped; the 640x416 special case breaks
with `vdisplay` forced to 416 only when `hz > 0 && mode_hz < hz`; an exact
resolution match sets `best` and breaks when the refresh rate also matches. -/
def _find_best_mode_scan (width height : Nat) (hz : ℚ) :
    List DrmModeInfo → Option DrmModeInfo → Option DrmModeInfo → Option DrmModeInfo →
    Option DrmModeInfo × Option DrmModeInfo × Option DrmModeInfo
  | [], best, closest, pref => (best, closest, pref)
  | mode :: rest, best, closest, pref =>
    if mode.flags_interlace = true then
      _find_best_mode_scan width height hz rest best closest pref
    else if width = 640 ∧ height = 416 ∧ mode.hdisplay = 640 ∧ mode.vdisplay = 480 ∧
        0 < hz ∧ _get_refresh_rate mode < hz then
      (some { mode with vdisplay := 416 }, closest, pref)
    else if mode.hdisplay = width ∧ mode.vdisplay = height ∧ 0 < hz ∧
        _get_refresh_rate mode = hz then
      (some mode, closest, pref)
    else
      let best2 := if mode.hdisplay = width ∧ mode.vdisplay = height then some mode else best
      let closest2 := if mode.hdisplay = width ∧ mode.vdisplay < height ∧
          _closest_replaceable closest hz = true then some mode else closest
      let pref2 := if pref = none ∧ mode.type_preferred = true then some mode else pref
      _find_best_mode_scan width height hz rest best2 closest2 pref2

/-- `_find_best_mode` (`libs/drm/drm.c` lines 1043-1091): run the scan, then
fall back from `best` to `closest` to `pref` to the connector's first listed
mode (`&conn->modes[0]`, `none` when the list is empty). -/
def _find_best_mode (modes : List DrmModeInfo) (width height : Nat) (hz : ℚ) :
    Option DrmModeInfo :=
  match _find_best_mode_scan width height hz modes none none none with
  | (some b, _, _) => some b
  | (none, some c, _) => some c
  | (none, none, some p) => some p
  | (none, none, none) => modes.head?

/-- An optional mode slot holds no interlaced mode. -/
def modeNotInterlaced : Option DrmModeInfo → Prop :=
  fun o => ∀ x, o = some x → x.flags_interlace = false

theorem find_best_mode_scan_interlace (width height : Nat) (hz : ℚ) :
    ∀ (modes : List DrmModeInfo) (best closest pref : Option DrmModeInfo),
      modeNotInterlaced best → modeNotInterlaced closest → modeNotInterlaced pref →
      modeNotInterlaced (_find_best_mode_scan width height hz modes best closest pref).1 ∧
      modeNotInterlaced (_find_best_mode_scan width height hz modes best closest pref).2.1 ∧
      modeNotInterlaced (_find_best_mode_scan width height hz modes best closest pref).2.2 := by
  intro modes
  induction modes with
  | nil => intro best closest pref hb hc hp; exact ⟨hb, hc, hp⟩
  | cons mode rest ih =>
    intro best closest pref hb hc hp
    simp only [_find_best_mode_scan]
    by_cases hint : mode.flags_interlace = true
    · rw [if_pos hint]
      exact ih best closest pref hb hc hp
    · have hflag : mode.flags_interlace = false := by
        cases h : mode.flags_interlace
        · rfl
        · exact absurd h hint
      rw [if_neg hint]
      by_cases hsp : width = 640 ∧ height = 416 ∧ mode.hdisplay = 640 ∧
          mode.vdisplay = 480 ∧ 0 < hz ∧ _get_refresh_rate mode < hz
      · rw [if_pos hsp]
        refine ⟨?_, hc, hp⟩
        intro x hx
        injection hx with h
        subst h
        exact hflag
      · rw [if_neg hsp]
        by_cases hex : mode.hdisplay = width ∧ mode.vdisplay = height ∧ 0 < hz ∧
            _get_refresh_rate mode = hz
        · rw [if_pos hex]
          refine ⟨?_, hc, hp⟩
          intro x hx
          injection hx with h
          subst h
          exact hflag
        · rw [if_neg hex]
          apply ih
          · intro x hx
            split_ifs at hx
            · injection hx with h
              subst h
              exact hflag
            · exact hb x hx
          · intro x hx
            split_ifs at hx
            · injection hx with h
              subst h
              exact hflag
            · exact hc x hx
          · intro x hx
            split_ifs at hx
            · injection hx with h
              subst h
              exact hflag
            · exact hp x hx

/-- A standard non-interlaced, preferred 640x480@59.94 VGA mode. -/
def vga480Mode : DrmModeInfo :=
  { clock := 25175, hdisplay := 640, vdisplay := 480, htotal := 800, vtotal := 525,
    vscan := 0, flags_interlace := false, flags_dblscan := false, type_preferred := true }

/-- The same timing marked interlaced and non-preferred. -/
def interlacedMode : DrmModeInfo :=
  { clock := 25175, hdisplay := 640, vdisplay := 480, htotal := 800, vtotal := 525,
    vscan := 0, flags_interlace := true, flags_dblscan := false, type_preferred := false }

/-- C9 counterexample: (1) a 640x416 request with `hz = 0` on a connector that
offers a non-interlaced 640x480 mode returns that mode with `vdisplay` still
480 — the special case at drm.c:1057 requires `hz > 0 && mode_hz < hz`, so the
claimed unconditional coercion to 416 does not happen; (2) on a connector
whose only mode is interlaced, the scan skips it but the final
`conn->modes[0]` fallback at drm.c:1086 returns it, so an interlaced mode can
be selected. -/
theorem C9_selection_counterexample :
    (_find_best_mode [vga480Mode] 640 416 0 = some vga480Mode ∧
     vga480Mode.vdisplay = 480) ∧
    (_find_best_mode [interlacedMode] 640 480 0 = some interlacedMode ∧
     interlacedMode.flags_interlace = true) := by
  decide

/-- C9 (amended): the 640x416 special case applies only when a refresh rate
was requested (`hz > 0`) and the scanned non-interlaced 640x480 mode refreshes
more slowly than requested — then `_find_best_mode` returns that mode with
`vdisplay` coerced to 416; and the scanning phase itself never selects an
interlaced mode (`best`, `closest` and `pref` are all non-interlaced), so an
interlaced result can only come from the final `conn->modes[0]` fallback,
i.e. it must be the connector's first listed mode. -/
theorem C9_mode_selection (m0 : DrmModeInfo) (rest modes : List DrmModeInfo)
    (hz hz2 : ℚ) (w h : Nat) (m : DrmModeInfo)
    (h0 : m0.flags_interlace = false) (hd : m0.hdisplay = 640) (vd : m0.vdisplay = 480)
    (hhz : 0 < hz) (hrate : _get_refresh_rate m0 < hz)
    (hm : _find_best_mode modes w h hz2 = some m) (hmi : m.flags_interlace = true) :
    _find_best_mode (m0 :: rest) 640 416 hz = some { m0 with vdisplay := 416 } ∧
    modes.head? = some m := by
  constructor
  · have hint : ¬ (m0.flags_interlace = true) := by
      rw [h0]
      exact Bool.false_ne_true
    unfold _find_best_mode
    simp only [_find_best_mode_scan]
    rw [if_neg hint, if_pos ⟨trivial, trivial, hd, vd, hhz, hrate⟩]
  · unfold _find_best_mode at hm
    have hinv := find_best_mode_scan_interlace w h hz2 modes none none none
      (fun x hx => nomatch hx) (fun x hx => nomatch hx) (fun x hx => nomatch hx)
    rcases hsc : _find_best_mode_scan w h hz2 modes none none none with ⟨b, c, p⟩
    rw [hsc] at hm hinv
    obtain ⟨ib, ic, ip⟩ := hinv
    cases b with
    | some b' =>
      injection hm with h
      subst h
      rw [ib b' rfl] at hmi
      exact Bool.noConfusion hmi
    | none =>
      cases c with
      | some c' =>
        injection hm with h
        subst h
        rw [ic c' rfl] at hmi
        exact Bool.noConfusion hmi
      | none =>
        cases p with
        | some p' =>
          injection hm with h
          subst h
          rw [ip p' rfl] at hmi
          exact Bool.noConfusion hmi
        | none =>
          exact hm

theorem C9_mode_selection_witness :
    (vga480Mode.flags_interlace = false ∧ vga480Mode.hdisplay = 640 ∧
     vga480Mode.vdisplay = 480 ∧ (0:ℚ) < 60 ∧ _get_refresh_rate vga480Mode < 60 ∧
     _find_best_mode [interlacedMode] 800 600 0 = some interlacedMode ∧
     interlacedMode.flags_interlace = true) ∧
    (_find_best_mode [vga480Mode] 640 416 60 = some { vga480Mode with vdisplay := 416 } ∧
     ([interlacedMode] : List DrmModeInfo).head? = some interlacedMode) :=
  ⟨⟨by decide, by decide, by decide, by decide, by norm_num [_get_refresh_rate, vga480Mode], by decide, by decide⟩,
   C9_mode_selection vga480Mode [] [interlacedMode] 60 0 800 600 interlacedMode
     (by decide) (by decide) (by decide) (by decide) (by norm_num [_get_refresh_rate, vga480Mode]) (by decide)
     (by decide)⟩
